import Mathlib

/-!
Verification development for a tree-walking Lox interpreter written in Rust
(scanner → parser → resolver → interpreter).  The Rust sources are shallowly
embedded below: pure functions become Lean functions, the interpreter's
mutable state (the environment chain behind Rc<RefCell<...>>, the instance
heap, the printed output, the reported-runtime-error channel) becomes an
explicit `InterpState` threaded through every operation, and fallible code
returns `Except`.  Rust's f64 numbers are modelled as `Int`: every numeric
literal the claims exercise is a small integer, on which the f64
operations +, -, *, = and < agree exactly with integer arithmetic; for `/`
only WHICH operations return `Ok` versus `Err` matters to the claims, so
the integer quotient stands in for the IEEE one.  Host panics
(`unreachable!`, `expect`, `todo!`) and the fuel needed to make recursion
structural are modelled by the two extra error constructors of `Err`.
-/

namespace Lox

/-- Token kinds, from the `token_type` module (the module file itself is not
in the snapshot; its variants are reconstructed from every use site in
`scanner.rs`, `parser.rs`, `interpreter.rs` and `resolver.rs`, and from the
spec's Token model: kind with literal payload for strings and numbers). -/
inductive TokenType where
  | leftParen | rightParen | leftBrace | rightBrace
  | comma | dot | minus | plus | semicolon | star | slash | question | colon
  | bang | bangEqual | equal | equalEqual
  | greater | greaterEqual | less | lessEqual
  | identifier
  | stringLit (value : String)
  | numberLit (value : Int)
  | kwAnd | kwClass | kwElse | kwFalse | kwFor | kwFun | kwIf | kwNil
  | kwOr | kwPrint | kwReturn | kwSuper | kwThis | kwTrue | kwVar | kwWhile
  | eof
  deriving DecidableEq

/-- `Token` from token.rs: kind, lexeme text, source line. -/
structure Token where
  kind : TokenType
  lexeme : String
  line : Nat
  deriving DecidableEq

/-- Expressions.  The shared expression module used by the interpreter and
resolver is not in the snapshot (the `expr.rs` present is an older
printer-only version); the variant list is reconstructed from the
`expr::Visitor` impls in interpreter.rs and resolver.rs and from the spec's
Expression model, node ids included (spec: a process-unique integer minted
at parse time, keying the resolver's depth map). -/
inductive Expr where
  | binary (left : Expr) (op : Token) (right : Expr)
  | grouping (e : Expr)
  | unary (op : Token) (e : Expr)
  | conditional (cond thenB elseB : Expr)
  | call (callee : Expr) (paren : Token) (args : List Expr)
  | get (obj : Expr) (prop : Token)
  | set (obj : Expr) (prop : Token) (value : Expr)
  | var (tok : Token) (id : Nat)
  | assign (tok : Token) (value : Expr) (id : Nat)
  | logicOr (left right : Expr)
  | logicAnd (left right : Expr)
  | this (tok : Token) (id : Nat)
  | num (value : Int)
  | str (value : String)
  | bool (value : Bool)
  | nil

/-- Statements, from stmt.rs (`Function = (Token, Vec<Token>, Vec<Stmt>)`
is the method tuple of a class declaration). -/
inductive Stmt where
  | block (stmts : List Stmt)
  | expression (e : Expr)
  | print (e : Expr)
  | varDecl (name : Token) (init : Option Expr)
  | ifStmt (cond : Expr) (thenB : Stmt) (elseB : Option Stmt)
  | function (name : Token) (params : List Token) (body : List Stmt)
  | whileStmt (cond : Expr) (body : Stmt)
  | returnStmt (tok : Token) (e : Expr)
  | classDecl (name : Token) (methods : List (Token × List Token × List Stmt))

/-- A user function value, from interpreter.rs `UserFunction`: parameter
tokens, body statements, and the captured closure environment (an index
into the environment heap, standing for the `Rc<RefCell<Environment>>`). -/
structure UserFunction where
  params : List Token
  body : List Stmt
  closure : Nat

/-- `LoxClass` from lox_class.rs: name token and method table
(`HashMap<String, UserFunction>`, modelled as an association list). -/
structure LoxClassData where
  name : Token
  methods : List (String × UserFunction)

/-- The callable values behind `Object::Call(Box<dyn Callable>)`: the one
native function (`ClockFunction`), user functions and classes. -/
inductive Callable where
  | clock
  | userFn (f : UserFunction)
  | klass (c : LoxClassData)

/-- Runtime values, from object.rs `Object`.  `classInstance` holds an index
into the instance heap (the `Rc<RefCell<LoxInstance>>`). -/
inductive Object where
  | boolean (b : Bool)
  | string (s : String)
  | number (n : Int)
  | call (c : Callable)
  | classInstance (ref : Nat)
  | nil

/-- `LoxInstance` from lox_instance.rs: owning class and field map. -/
structure LoxInstanceData where
  klass : LoxClassData
  fields : List (String × Object)

/-- `LoxError` from error.rs, plus the `ResolverError` variant that
resolver.rs constructs (the snapshot's error.rs predates it).  `ret` is the
source's `LoxError::Return`: return-as-control-flow shares the error
channel. -/
inductive LoxError where
  | parserError (line : Nat) (message : String)
  | runtimeError (tok : Token) (message : String)
  | ret (value : Object)
  | resolverError (tok : Token) (message : String)

/-- Everything a fallible embedded operation can produce besides a value:
a `LoxError` (the source's `Result`), a host panic (`unreachable!`,
`expect`, `todo!`), or fuel exhaustion (an artifact of making the
interpreter's recursion structural; the source has no such case). -/
inductive Err where
  | lox (e : LoxError)
  | panicked
  | fuel

/-- `Object::is_truphy` (source spelling): nil and false are falsy,
everything else truthy. -/
def Object.isTruphy : Object → Bool
  | .boolean b => b
  | .nil => false
  | _ => true

/-- `impl PartialEq for Object` from object.rs: structural for
Boolean/Number/String/Nil, every other pair (mixed variants, two callables,
two instances) compares unequal. -/
def Object.beq : Object → Object → Bool
  | .boolean x, .boolean y => x == y
  | .number x, .number y => x == y
  | .string x, .string y => x == y
  | .nil, .nil => true
  | _, _ => false

/-- Specification helper (not from the source): the variant tag of an
`Object`, used only to state which pairs of values are of differing
variants. -/
def Object.tag : Object → Nat
  | .boolean _ => 0
  | .string _ => 1
  | .number _ => 2
  | .call _ => 3
  | .classInstance _ => 4
  | .nil => 5

/-- Rendering of a number for the string-concatenation arms of `+`
(the source formats the f64 with `{}`); the integer rendering stands in
for it. -/
def ratDisplay (q : Int) : String :=
  toString q

/-- `LoxClass::find_method`: a `HashMap::get` on the method table. -/
def findMethod (c : LoxClassData) (name : String) : Option UserFunction :=
  List.lookup name c.methods

/-- `Callable::arity`: 0 for the clock native, the parameter count for a
user function, and for a class the arity of its `init` method if any
(lox_class.rs). -/
def Callable.arity : Callable → Nat
  | .clock => 0
  | .userFn f => f.params.length
  | .klass c =>
      match findMethod c "init" with
      | some m => m.params.length
      | none => 0

/-- `HashMap::insert` modelled on an association list: replaces the value
in place if the key exists (returning the old value), appends otherwise. -/
def insertReplace [DecidableEq κ] (k : κ) (v : α) : List (κ × α) → Option α × List (κ × α)
  | [] => (none, [(k, v)])
  | (k2, v2) :: rest =>
      if k = k2 then (some v2, (k, v) :: rest)
      else
        match insertReplace k v rest with
        | (old, rest2) => (old, (k2, v2) :: rest2)

/-- The match arms of `Interpreter::visit_binary_expr` on the already
evaluated operands (interpreter.rs lines 94-181).  The `Star` arm carries
the zero check (with its "Cannot divide by zero" message); the `Slash` arm
divides unconditionally.  The final `unreachable!` arm is a panic. -/
def binaryOp (op : Token) (left right : Object) : Except Err Object :=
  match op.kind, left, right with
  | .equalEqual, l, r => .ok (.boolean (Object.beq l r))
  | .bangEqual, l, r => .ok (.boolean (!Object.beq l r))
  | .greater, .number l, .number r => .ok (.boolean (decide (r < l)))
  | .greaterEqual, .number l, .number r => .ok (.boolean (decide (r ≤ l)))
  | .less, .number l, .number r => .ok (.boolean (decide (l < r)))
  | .lessEqual, .number l, .number r => .ok (.boolean (decide (l ≤ r)))
  | .greater, .string l, .string r => .ok (.boolean (decide (r < l)))
  | .greaterEqual, .string l, .string r => .ok (.boolean (!decide (l < r)))
  | .less, .string l, .string r => .ok (.boolean (decide (l < r)))
  | .lessEqual, .string l, .string r => .ok (.boolean (!decide (r < l)))
  | .greater, _, _ | .greaterEqual, _, _ | .less, _, _ | .lessEqual, _, _ =>
      .error (.lox (.runtimeError op "Expected operands to be numbers"))
  | .plus, .number l, .number r => .ok (.number (l + r))
  | .plus, .string l, .string r => .ok (.string (l ++ r))
  | .plus, .number l, .string r => .ok (.string (ratDisplay l ++ r))
  | .plus, .string l, .number r => .ok (.string (l ++ ratDisplay r))
  | .minus, .number l, .number r => .ok (.number (l - r))
  | .plus, _, _ =>
      .error (.lox (.runtimeError op "Expected operands to be numbers or strings"))
  | .minus, _, _ =>
      .error (.lox (.runtimeError op "Expected operands to be numbers"))
  | .star, .number l, .number r =>
      if r = 0 then .error (.lox (.runtimeError op "Cannot divide by zero"))
      else .ok (.number (l * r))
  | .slash, .number l, .number r => .ok (.number (l / r))
  | .star, _, _ | .slash, _, _ =>
      .error (.lox (.runtimeError op "Expected operands to be numbers"))
  | _, _, _ => .error .panicked

/-- `Interpreter::visit_unary_expr` on the evaluated operand. -/
def unaryOp (op : Token) (v : Object) : Except Err Object :=
  match op.kind, v with
  | .bang, x => .ok (.boolean (!x.isTruphy))
  | .minus, .number q => .ok (.number (-q))
  | .minus, _ => .error (.lox (.runtimeError op "Operand must be a number"))
  | _, _ => .error .panicked

/-- One environment of the chain, from environment.rs: name → optional
value (none = declared but uninitialized), and the enclosing link (an index
into the environment heap, or none for the global environment). -/
structure EnvData where
  vars : List (String × Option Object)
  enclosing : Option Nat

/-- The interpreter's mutable state: the environment heap (every
`Rc<RefCell<Environment>>` ever allocated; indices are stable and
allocation appends), the instance heap, the indices of the global and
current local environment, the resolver's node-id → depth map, the printed
output (the values handed to `println!` by `visit_print_stmt`), the runtime
errors handed to `lox::report_runtime`, and the wall-clock reading the
`clock` native returns. -/
structure InterpState where
  envs : List EnvData
  instances : List LoxInstanceData
  globalEnv : Nat
  localEnv : Nat
  depths : List (Nat × Nat)
  output : List Object
  runtimeReports : List LoxError
  clockNow : Int

/-- `Environment::define` on the environment at heap index `ref`. -/
def envDefine (s : InterpState) (ref : Nat) (key : String) (v : Option Object) :
    InterpState :=
  match s with
  | ⟨envs, ins, g, l, d, o, rr, ck⟩ =>
      match envs.get? ref with
      | none => ⟨envs, ins, g, l, d, o, rr, ck⟩
      | some e =>
          ⟨envs.set ref ({ e with vars := (insertReplace key v e.vars).2 }),
            ins, g, l, d, o, rr, ck⟩

/-- `Environment::get`: consults only this environment's own map (no chain
walk); distinguishes declared-but-uninitialized from undeclared. -/
def envGet (s : InterpState) (ref : Nat) (tok : Token) : Except Err Object :=
  match s.envs.get? ref with
  | none => .error .panicked
  | some e =>
      match List.lookup tok.lexeme e.vars with
      | some (some v) => .ok v
      | some none =>
          .error (.lox (.runtimeError tok
            ("Non initialized variable '" ++ tok.lexeme ++ "'.")))
      | none =>
          .error (.lox (.runtimeError tok
            ("Undefined variable '" ++ tok.lexeme ++ "'.")))

/-- `Environment::assign`: existing binding only, no chain walk. -/
def envAssign (s : InterpState) (ref : Nat) (tok : Token) (v : Object) :
    Except Err Unit × InterpState :=
  match s with
  | ⟨envs, ins, g, l, d, o, rr, ck⟩ =>
      match envs.get? ref with
      | none => (.error .panicked, ⟨envs, ins, g, l, d, o, rr, ck⟩)
      | some e =>
          if (List.lookup tok.lexeme e.vars).isSome then
            (.ok (),
              ⟨envs.set ref
                  ({ e with vars := (insertReplace tok.lexeme (some v) e.vars).2 }),
                ins, g, l, d, o, rr, ck⟩)
          else
            (.error (.lox (.runtimeError tok
              ("Undefined variable, `" ++ tok.lexeme ++ "`"))),
              ⟨envs, ins, g, l, d, o, rr, ck⟩)

/-- `Environment::get_at`: jump exactly `distance` enclosing links, then
`get`; a missing enclosing link is the source's `expect` panic. -/
def envGetAt (s : InterpState) (ref : Nat) (tok : Token) : Nat → Except Err Object
  | 0 => envGet s ref tok
  | d + 1 =>
      match s.envs.get? ref with
      | none => .error .panicked
      | some e =>
          match e.enclosing with
          | none => .error .panicked
          | some r => envGetAt s r tok d

/-- `Environment::assign_at`: jump exactly `distance` links, then `assign`. -/
def envAssignAt (s : InterpState) (ref : Nat) (tok : Token) (v : Object) :
    Nat → Except Err Unit × InterpState
  | 0 => envAssign s ref tok v
  | d + 1 =>
      match s.envs.get? ref with
      | none => (.error .panicked, s)
      | some e =>
          match e.enclosing with
          | none => (.error .panicked, s)
          | some r => envAssignAt s r tok v d

/-- `UserFunction::bind`.  Modelled from the spec: the method's `bind` is
called by lox_class.rs and lox_instance.rs but is not among the snapshot's
files; per the spec a method read is "implicitly bound to the instance"
through an implicit `this` binding injected into a scope enclosing the
method body, so bind allocates one environment holding `this` → the
instance, enclosing the method's closure, and repoints the closure at it. -/
def bindMethod (s : InterpState) (m : UserFunction) (ref : Nat) :
    UserFunction × InterpState :=
  let r := s.envs.length
  ({ m with closure := r },
   { s with envs := s.envs ++ [⟨[("this", some (.classInstance ref))], some m.closure⟩] })

/-- `LoxInstance::get`: field lookup, falling back to a method bound to the
instance, else an undefined-property runtime error. -/
def instanceGet (s : InterpState) (ref : Nat) (prop : Token) :
    Except Err Object × InterpState :=
  match s.instances.get? ref with
  | none => (.error .panicked, s)
  | some inst =>
      match List.lookup prop.lexeme inst.fields with
      | some v => (.ok v, s)
      | none =>
          match findMethod inst.klass prop.lexeme with
          | some m =>
              match bindMethod s m ref with
              | (bm, s1) => (.ok (.call (.userFn bm)), s1)
          | none =>
              (.error (.lox (.runtimeError prop
                ("Undefined property '" ++ prop.lexeme ++ "'"))), s)

/-- `LoxInstance::set`: always targets fields. -/
def instanceSet (s : InterpState) (ref : Nat) (prop : Token) (v : Object) :
    InterpState :=
  match s.instances.get? ref with
  | none => s
  | some inst =>
      { s with
          instances := s.instances.set ref
            ({ inst with fields := (insertReplace prop.lexeme v inst.fields).2 }) }

/-- Lookup in the resolver-supplied `expr_id_scope_depth` map. -/
def lookupDepth (s : InterpState) (id : Nat) : Option Nat :=
  List.lookup id s.depths

/-- The parameter-binding environment of `UserFunction::call`: a fresh
environment enclosing the captured closure, each parameter defined to the
positionally zipped argument. -/
def userFunctionParamEnv (f : UserFunction) (args : List Object) : EnvData :=
  (f.params.zip args).foldl
    (fun e pa => { e with vars := (insertReplace pa.1.lexeme (some pa.2) e.vars).2 })
    (⟨[], some f.closure⟩ : EnvData)

mutual

/-- `Interpreter::evaluate` / the `expr::Visitor` impl of interpreter.rs,
one arm per visit method, with explicit fuel (the source recurses on the
host stack).  `Expr.this` is evaluated like a variable reference (the
interpreter's visitor for `This` is in the missing shared expression
module; spec: `this` is an implicit binding resolved like any variable). -/
def evaluate (fuel : Nat) (e : Expr) (s : InterpState) :
    Except Err Object × InterpState :=
  match fuel with
  | 0 => (.error .fuel, s)
  | fuel + 1 =>
    match e with
    | .binary l op r =>
        match evaluate fuel l s with
        | (.error e1, s1) => (.error e1, s1)
        | (.ok lv, s1) =>
            match evaluate fuel r s1 with
            | (.error e1, s2) => (.error e1, s2)
            | (.ok rv, s2) => (binaryOp op lv rv, s2)
    | .grouping g => evaluate fuel g s
    | .unary op g =>
        match evaluate fuel g s with
        | (.error e1, s1) => (.error e1, s1)
        | (.ok v, s1) => (unaryOp op v, s1)
    | .conditional c t f =>
        match evaluate fuel c s with
        | (.error e1, s1) => (.error e1, s1)
        | (.ok cv, s1) =>
            if cv.isTruphy then evaluate fuel t s1 else evaluate fuel f s1
    | .num q => (.ok (.number q), s)
    | .str v => (.ok (.string v), s)
    | .bool b => (.ok (.boolean b), s)
    | .nil => (.ok .nil, s)
    | .var tok id =>
        match lookupDepth s id with
        | some d => (envGetAt s s.localEnv tok d, s)
        | none => (envGet s s.globalEnv tok, s)
    | .this tok id =>
        match lookupDepth s id with
        | some d => (envGetAt s s.localEnv tok d, s)
        | none => (envGet s s.globalEnv tok, s)
    | .assign tok rhs id =>
        match evaluate fuel rhs s with
        | (.error e1, s1) => (.error e1, s1)
        | (.ok v, s1) =>
            match lookupDepth s1 id with
            | some d =>
                match envAssignAt s1 s1.localEnv tok v d with
                | (.ok _, s2) => (.ok v, s2)
                | (.error e1, s2) => (.error e1, s2)
            | none =>
                match envAssign s1 s1.globalEnv tok v with
                | (.ok _, s2) => (.ok v, s2)
                | (.error e1, s2) => (.error e1, s2)
    | .logicOr l r =>
        match evaluate fuel l s with
        | (.error e1, s1) => (.error e1, s1)
        | (.ok lv, s1) => if lv.isTruphy then (.ok lv, s1) else evaluate fuel r s1
    | .logicAnd l r =>
        match evaluate fuel l s with
        | (.error e1, s1) => (.error e1, s1)
        | (.ok lv, s1) => if !lv.isTruphy then (.ok lv, s1) else evaluate fuel r s1
    | .call callee paren args =>
        match evaluate fuel callee s with
        | (.error e1, s1) => (.error e1, s1)
        | (.ok cv, s1) =>
            match evalArgs fuel args s1 with
            | (.error e1, s2) => (.error e1, s2)
            | (.ok avs, s2) =>
                match cv with
                | .call c =>
                    if c.arity ≠ avs.length then
                      (.error (.lox (.runtimeError paren
                        ("Expect " ++ toString c.arity ++ " arguments but found "
                          ++ toString avs.length))), s2)
                    else callCallable fuel c avs s2
                | _ =>
                    (.error (.lox (.runtimeError paren
                      "Can only calll on functions or classes")), s2)
    | .get obj prop =>
        match evaluate fuel obj s with
        | (.error e1, s1) => (.error e1, s1)
        | (.ok ov, s1) =>
            match ov with
            | .classInstance ref => instanceGet s1 ref prop
            | _ =>
                (.error (.lox (.runtimeError prop
                  "Only instances have properties")), s1)
    | .set obj prop value =>
        match evaluate fuel obj s with
        | (.error e1, s1) => (.error e1, s1)
        | (.ok ov, s1) =>
            match ov with
            | .classInstance ref =>
                match evaluate fuel value s1 with
                | (.error e1, s2) => (.error e1, s2)
                | (.ok v, s2) => (.ok v, instanceSet s2 ref prop v)
            | _ =>
                (.error (.lox (.runtimeError prop
                  "Only instances have fields")), s1)

/-- The argument list evaluation of `visit_call_expr`: `collect` over a
`Result` iterator stops at the first error, effects of earlier arguments
kept. -/
def evalArgs (fuel : Nat) (args : List Expr) (s : InterpState) :
    Except Err (List Object) × InterpState :=
  match fuel with
  | 0 => (.error .fuel, s)
  | fuel + 1 =>
    match args with
    | [] => (.ok [], s)
    | a :: rest =>
        match evaluate fuel a s with
        | (.error e1, s1) => (.error e1, s1)
        | (.ok v, s1) =>
            match evalArgs fuel rest s1 with
            | (.error e1, s2) => (.error e1, s2)
            | (.ok vs, s2) => (.ok (v :: vs), s2)

/-- `Interpreter::execute` / the `stmt::Visitor` impl of interpreter.rs. -/
def execute (fuel : Nat) (st : Stmt) (s : InterpState) :
    Except Err Unit × InterpState :=
  match fuel with
  | 0 => (.error .fuel, s)
  | fuel + 1 =>
    match st with
    | .block stmts =>
        -- visit_block_stmt: a child environment enclosing the current one
        executeBlock fuel stmts ⟨[], some s.localEnv⟩ s
    | .expression e =>
        match evaluate fuel e s with
        | (.error e1, s1) => (.error e1, s1)
        | (.ok _, s1) => (.ok (), s1)
    | .print e =>
        match evaluate fuel e s with
        | (.error e1, s1) => (.error e1, s1)
        | (.ok v, ⟨envs1, ins1, g1, l1, d1, o1, rr1, ck1⟩) =>
            (.ok (), ⟨envs1, ins1, g1, l1, d1, o1 ++ [v], rr1, ck1⟩)
    | .varDecl tok init =>
        match init with
        | some e =>
            match evaluate fuel e s with
            | (.error e1, s1) => (.error e1, s1)
            | (.ok v, s1) => (.ok (), envDefine s1 s1.localEnv tok.lexeme (some v))
        | none => (.ok (), envDefine s s.localEnv tok.lexeme none)
    | .ifStmt c t f =>
        match evaluate fuel c s with
        | (.error e1, s1) => (.error e1, s1)
        | (.ok cv, s1) =>
            if cv.isTruphy then execute fuel t s1
            else
              match f with
              | some fb => execute fuel fb s1
              | none => (.ok (), s1)
    | .whileStmt c b =>
        match evaluate fuel c s with
        | (.error e1, s1) => (.error e1, s1)
        | (.ok cv, s1) =>
            if cv.isTruphy then
              match execute fuel b s1 with
              | (.error e1, s2) => (.error e1, s2)
              | (.ok _, s2) => execute fuel (.whileStmt c b) s2
            else (.ok (), s1)
    | .function name params body =>
        (.ok (), envDefine s s.localEnv name.lexeme
          (some (.call (.userFn ⟨params, body, s.localEnv⟩))))
    | .returnStmt _tok e =>
        match evaluate fuel e s with
        | (.error e1, s1) => (.error e1, s1)
        | (.ok v, s1) => (.error (.lox (.ret v)), s1)
    | .classDecl tok _methods =>
        -- visit_class_stmt: defines the name, then builds the class with an
        -- EMPTY method table (`LoxClass::new(token.clone(), vec![])`) — the
        -- `methods` parameter is discarded — and assigns it.
        let s1 := envDefine s s.localEnv tok.lexeme none
        match envAssign s1 s1.localEnv tok (.call (.klass ⟨tok, []⟩)) with
        | (.ok _, s2) => (.ok (), s2)
        | (.error e1, s2) => (.error e1, s2)

/-- The `collect::<Result<()>>` over the block's statements: stops at the
first error, keeping the state reached so far. -/
def execStmts (fuel : Nat) (stmts : List Stmt) (s : InterpState) :
    Except Err Unit × InterpState :=
  match fuel with
  | 0 => (.error .fuel, s)
  | fuel + 1 =>
    match stmts with
    | [] => (.ok (), s)
    | st :: rest =>
        match execute fuel st s with
        | (.error e1, s1) => (.error e1, s1)
        | (.ok _, s1) => execStmts fuel rest s1

/-- `Interpreter::execute_block`: allocates the given environment, swaps
the current-environment reference to it, runs the statements, and swaps
the saved reference back on every exit path. -/
def executeBlock (fuel : Nat) (stmts : List Stmt) (env : EnvData)
    (s : InterpState) : Except Err Unit × InterpState :=
  match fuel with
  | 0 => (.error .fuel, s)
  | fuel + 1 =>
      let r := s.envs.length
      let s1 := { s with envs := s.envs ++ [env], localEnv := r }
      match execStmts fuel stmts s1 with
      | (res, ⟨envs2, ins2, g2, _, d2, o2, rr2, ck2⟩) =>
          (res, ⟨envs2, ins2, g2, s.localEnv, d2, o2, rr2, ck2⟩)

/-- Dispatch over `Box<dyn Callable>::call`. -/
def callCallable (fuel : Nat) (c : Callable) (args : List Object)
    (s : InterpState) : Except Err Object × InterpState :=
  match fuel with
  | 0 => (.error .fuel, s)
  | fuel + 1 =>
    match c with
    | .clock => (.ok (.number s.clockNow), s)
    | .userFn f => callUser fuel f args s
    | .klass cd => classCall fuel cd args s

/-- `UserFunction::call` (interpreter.rs lines 482-499): a fresh
environment enclosing the captured closure, parameters bound positionally
(`zip`), the body run through `execute_block`; `Ok` becomes `Nil`, the
`Return` error becomes the returned value, other errors propagate. -/
def callUser (fuel : Nat) (f : UserFunction) (args : List Object)
    (s : InterpState) : Except Err Object × InterpState :=
  match fuel with
  | 0 => (.error .fuel, s)
  | fuel + 1 =>
      match executeBlock fuel f.body (userFunctionParamEnv f args) s with
      | (.ok _, s1) => (.ok .nil, s1)
      | (.error (.lox (.ret v)), s1) => (.ok v, s1)
      | (.error e1, s1) => (.error e1, s1)

/-- `LoxClass::call` (lox_class.rs lines 38-48): a fresh instance; if an
`init` method exists it is bound and called, but the `Result` of that call
is the unused value of an `Option::map` — a `LoxError` from `init`
(including `Return`) is DISCARDED and the instance is returned anyway.
Host panics (and the fuel artifact) still unwind. -/
def classCall (fuel : Nat) (cd : LoxClassData) (args : List Object)
    (s : InterpState) : Except Err Object × InterpState :=
  match fuel with
  | 0 => (.error .fuel, s)
  | fuel + 1 =>
      let ref := s.instances.length
      let s1 := { s with instances := s.instances ++ [⟨cd, []⟩] }
      match findMethod cd "init" with
      | none => (.ok (.classInstance ref), s1)
      | some m =>
          match bindMethod s1 m ref with
          | (bm, s2) =>
              match callUser fuel bm args s2 with
              | (.error .panicked, s3) => (.error .panicked, s3)
              | (.error .fuel, s3) => (.error .fuel, s3)
              | (_, s3) => (.ok (.classInstance ref), s3)

end

/-- `lox::report_runtime`: the error is printed and the runtime-error latch
set; modelled as appending to the report channel. -/
def reportRuntime (e : LoxError) (s : InterpState) : InterpState :=
  { s with runtimeReports := s.runtimeReports ++ [e] }

/-- `Interpreter::interpret`: every top-level statement is executed in
order; a statement's runtime error is handed to `report_runtime` by
`unwrap_or_else` and the loop CONTINUES with the next statement.  A host
panic (or the fuel artifact) aborts the loop, as a Rust panic would unwind
past `unwrap_or_else`. -/
def interpret (fuel : Nat) (stmts : List Stmt) (s : InterpState) :
    Option Err × InterpState :=
  match stmts with
  | [] => (none, s)
  | st :: rest =>
      match execute fuel st s with
      | (.ok _, s1) => interpret fuel rest s1
      | (.error (.lox e), s1) => interpret fuel rest (reportRuntime e s1)
      | (.error e1, s1) => (some e1, s1)

/-- `create_global_enviroment` (source spelling): the global environment
pre-seeded with the `clock` native. -/
def createGlobalEnviroment : EnvData :=
  ⟨[("clock", some (.call .clock))], none⟩

/-- `Interpreter::new`: heap slot 0 is the global environment, slot 1 the
initial local environment enclosing it. -/
def initialState : InterpState :=
  { envs := [createGlobalEnviroment, ⟨[], some 0⟩]
  , instances := []
  , globalEnv := 0
  , localEnv := 1
  , depths := []
  , output := []
  , runtimeReports := []
  , clockNow := 0 }

/-- `Interpreter::add_expr_ids_depth`: drains the resolver's map into the
interpreter's. -/
def addExprIdsDepth (s : InterpState) (m : List (Nat × Nat)) : InterpState :=
  { s with depths := m.foldl (fun d kv => (insertReplace kv.1 kv.2 d).2) s.depths }

/-- `VarState` from resolver.rs: the declare → define → read lifecycle of a
name in one scope. -/
inductive VarState where
  | declared (tok : Token)
  | defined (tok : Token)
  | read (tok : Token)

def VarState.isDeclared : VarState → Bool
  | .declared _ => true
  | _ => false

def VarState.isRead : VarState → Bool
  | .read _ => true
  | _ => false

def VarState.token : VarState → Token
  | .declared t => t
  | .defined t => t
  | .read t => t

def VarState.setHasBeenRead : VarState → VarState
  | .declared t => .read t
  | .defined t => .read t
  | .read t => .read t

/-- `FunctionType` from resolver.rs. -/
inductive FunctionType where
  | none
  | function
  | method
  deriving DecidableEq

/-- The resolver's state: the scope stack (HEAD of the list is the
innermost scope, the source Vec's last element), the node-id → depth map
under construction, and the current-function marker. -/
structure RState where
  scopes : List (List (String × VarState))
  exprIdScopeDepth : List (Nat × Nat)
  currentFunction : FunctionType

/-- `Result::and`: keeps the first error, else the second result (both
operands of the source's `.and(...)` chains are evaluated eagerly, so the
model computes both effects first and combines the outcomes with this). -/
def andE (a : Except Err Unit) (b : Except Err Unit) : Except Err Unit :=
  match a with
  | .error e => .error e
  | .ok _ => b

/-- `Resolver::declare`: insert into the innermost scope as `Declared`; a
previous value under the same name is a duplicate-declaration error (the
insert itself still happened). -/
def declare (tok : Token) (r : RState) : Except Err Unit × RState :=
  match r.scopes with
  | [] => (.ok (), r)
  | sc :: rest =>
      match insertReplace tok.lexeme (VarState.declared tok) sc with
      | (old, sc2) =>
          let r2 := { r with scopes := sc2 :: rest }
          match old with
          | some _ =>
              (.error (.lox (.resolverError tok
                ("Variable '" ++ tok.lexeme ++ "' already declared"))), r2)
          | none => (.ok (), r2)

/-- `Resolver::define`: `Declared` becomes `Defined`; an absent entry is
inserted as `Defined`; `Defined`/`Read` entries are left alone. -/
def define (tok : Token) (r : RState) : Except Err Unit × RState :=
  match r.scopes with
  | [] => (.ok (), r)
  | sc :: rest =>
      let sc2 :=
        match List.lookup tok.lexeme sc with
        | some (VarState.declared t) =>
            (insertReplace tok.lexeme (VarState.defined t) sc).2
        | some _ => sc
        | none => (insertReplace tok.lexeme (VarState.defined tok) sc).2
      (.ok (), { r with scopes := sc2 :: rest })

/-- Helper: replace the element at index `i` (the source mutates the scope
Vec in place through `iter_mut().nth(...)`). -/
def listModify (i : Nat) (f : α → α) : List α → List α
  | [] => []
  | a :: rest =>
      match i with
      | 0 => f a :: rest
      | j + 1 => a :: listModify j f rest

/-- Mark the entry under `name` as read, in place. -/
def scopeMarkRead (name : String) (sc : List (String × VarState)) :
    List (String × VarState) :=
  match List.lookup name sc with
  | some vs => (insertReplace name vs.setHasBeenRead sc).2
  | none => sc

/-- `Resolver::resolve_local`: find the innermost scope holding the name
(the source's `rposition` over the Vec; index-from-innermost in this
representation IS the recorded depth `scopes.len() - 1 - found_index`),
optionally mark it read, and record the depth under the node id. -/
def resolveLocal (tok : Token) (exprId : Nat) (markAsRead : Bool) (r : RState) :
    RState :=
  match r.scopes.findIdx? (fun sc => (List.lookup tok.lexeme sc).isSome) with
  | none => r
  | some i =>
      let r1 :=
        if markAsRead then
          { r with scopes := listModify i (scopeMarkRead tok.lexeme) r.scopes }
        else r
      { r1 with exprIdScopeDepth := (insertReplace exprId i r1.exprIdScopeDepth).2 }

/-- The parameter seeding loop of `resolve_function`:
`declare(param).and(define(param))` per parameter (both computed), first
error short-circuits the collect. -/
def resolveParams (params : List Token) (r : RState) : Except Err Unit × RState :=
  match params with
  | [] => (.ok (), r)
  | p :: rest =>
      match declare p r with
      | (a, r1) =>
          match define p r1 with
          | (b, r2) =>
              match andE a b with
              | .error e1 => (.error e1, r2)
              | .ok _ => resolveParams rest r2

mutual

/-- The `expr::Visitor` impl of resolver.rs, one arm per visit method. -/
def resolveExpr (fuel : Nat) (e : Expr) (r : RState) : Except Err Unit × RState :=
  match fuel with
  | 0 => (.error .fuel, r)
  | fuel + 1 =>
    match e with
    | .binary l _ rr =>
        match resolveExpr fuel l r with
        | (.error e1, r1) => (.error e1, r1)
        | (.ok _, r1) => resolveExpr fuel rr r1
    | .grouping g => resolveExpr fuel g r
    | .unary _ g => resolveExpr fuel g r
    | .conditional c t f =>
        match resolveExpr fuel c r with
        | (.error e1, r1) => (.error e1, r1)
        | (.ok _, r1) =>
            match resolveExpr fuel t r1 with
            | (.error e1, r2) => (.error e1, r2)
            | (.ok _, r2) => resolveExpr fuel f r2
    | .call callee _ args =>
        match resolveExpr fuel callee r with
        | (.error e1, r1) => (.error e1, r1)
        | (.ok _, r1) => resolveExprs fuel args r1
    | .num _ => (.ok (), r)
    | .str _ => (.ok (), r)
    | .bool _ => (.ok (), r)
    | .nil => (.ok (), r)
    | .var tok id =>
        -- visit_variable_expr: only the INNERMOST scope is consulted for the
        -- still-Declared (own-initializer) check.
        let varState :=
          match r.scopes with
          | [] => Option.none
          | sc :: _ => List.lookup tok.lexeme sc
        if (varState.map VarState.isDeclared).getD false then
          (.error (.lox (.resolverError tok
            "Can't read local variable in its own initializer.")), r)
        else (.ok (), resolveLocal tok id true r)
    | .assign tok value id =>
        match resolveExpr fuel value r with
        | (.error e1, r1) => (.error e1, r1)
        | (.ok _, r1) => (.ok (), resolveLocal tok id false r1)
    | .logicOr l rr =>
        match resolveExpr fuel l r with
        | (.error e1, r1) => (.error e1, r1)
        | (.ok _, r1) => resolveExpr fuel rr r1
    | .logicAnd l rr =>
        match resolveExpr fuel l r with
        | (.error e1, r1) => (.error e1, r1)
        | (.ok _, r1) => resolveExpr fuel rr r1
    | .get obj _ => resolveExpr fuel obj r
    | .set obj _ value =>
        match resolveExpr fuel obj r with
        | (a, r1) =>
            match resolveExpr fuel value r1 with
            | (b, r2) => (andE a b, r2)
    | .this tok id =>
        if r.currentFunction ≠ FunctionType.method then
          (.error (.lox (.resolverError tok
            "Can't use 'this' outside of class methods")), r)
        else (.ok (), resolveLocal tok id false r)

def resolveExprs (fuel : Nat) (es : List Expr) (r : RState) :
    Except Err Unit × RState :=
  match fuel with
  | 0 => (.error .fuel, r)
  | fuel + 1 =>
    match es with
    | [] => (.ok (), r)
    | e :: rest =>
        match resolveExpr fuel e r with
        | (.error e1, r1) => (.error e1, r1)
        | (.ok _, r1) => resolveExprs fuel rest r1

/-- The `stmt::Visitor` impl of resolver.rs. -/
def resolveStmt (fuel : Nat) (st : Stmt) (r : RState) : Except Err Unit × RState :=
  match fuel with
  | 0 => (.error .fuel, r)
  | fuel + 1 =>
    match st with
    | .block stmts =>
        -- begin_scope; resolve_stmts?; end_scope (not reached on error)
        let r1 := { r with scopes := [] :: r.scopes }
        match resolveStmts fuel stmts r1 with
        | (.error e1, r2) => (.error e1, r2)
        | (.ok _, r2) => (.ok (), { r2 with scopes := r2.scopes.tail })
    | .expression e => resolveExpr fuel e r
    | .print e => resolveExpr fuel e r
    | .varDecl tok init =>
        match declare tok r with
        | (.error e1, r1) => (.error e1, r1)
        | (.ok _, r1) =>
            match init with
            | some e =>
                match resolveExpr fuel e r1 with
                | (.error e1, r2) => (.error e1, r2)
                | (.ok _, r2) => define tok r2
            | none => define tok r1
    | .ifStmt c t f =>
        match resolveExpr fuel c r with
        | (.error e1, r1) => (.error e1, r1)
        | (.ok _, r1) =>
            match resolveStmt fuel t r1 with
            | (.error e1, r2) => (.error e1, r2)
            | (.ok _, r2) =>
                match f with
                | some fb => resolveStmt fuel fb r2
                | none => (.ok (), r2)
    | .whileStmt c b =>
        match resolveExpr fuel c r with
        | (.error e1, r1) => (.error e1, r1)
        | (.ok _, r1) => resolveStmt fuel b r1
    | .function name params body =>
        match declare name r with
        | (.error e1, r1) => (.error e1, r1)
        | (.ok _, r1) =>
            match define name r1 with
            | (.error e1, r2) => (.error e1, r2)
            | (.ok _, r2) => resolveFunction fuel params body FunctionType.function r2
    | .returnStmt tok e =>
        if r.currentFunction = FunctionType.none then
          (.error (.lox (.resolverError tok "Can't return on top-level code")), r)
        else resolveExpr fuel e r
    | .classDecl tok methods =>
        -- declare(token).and(define(token)).and(methods ... collect()):
        -- all three computed in order, first error wins.
        match declare tok r with
        | (a, r1) =>
            match define tok r1 with
            | (b, r2) =>
                match resolveMethods fuel methods r2 with
                | (c, r3) => (andE (andE a b) c, r3)

def resolveStmts (fuel : Nat) (stmts : List Stmt) (r : RState) :
    Except Err Unit × RState :=
  match fuel with
  | 0 => (.error .fuel, r)
  | fuel + 1 =>
    match stmts with
    | [] => (.ok (), r)
    | st :: rest =>
        match resolveStmt fuel st r with
        | (.error e1, r1) => (.error e1, r1)
        | (.ok _, r1) => resolveStmts fuel rest r1

/-- `Resolver::resolve_function`: fresh scope seeded with the parameters
(declare-and-define per parameter, first error short-circuits), body
resolved under the given function marker; scope and marker restored only on
success (the source's early `?` returns skip both restorations). -/
def resolveFunction (fuel : Nat) (params : List Token) (body : List Stmt)
    (kind : FunctionType) (r : RState) : Except Err Unit × RState :=
  match fuel with
  | 0 => (.error .fuel, r)
  | fuel + 1 =>
      let enclosing := r.currentFunction
      let r1 := { r with currentFunction := kind, scopes := [] :: r.scopes }
      match resolveParams params r1 with
      | (.error e1, r2) => (.error e1, r2)
      | (.ok _, r2) =>
          match resolveStmts fuel body r2 with
          | (.error e1, r3) => (.error e1, r3)
          | (.ok _, r3) =>
              (.ok (), { r3 with scopes := r3.scopes.tail,
                                 currentFunction := enclosing })

/-- The classDecl arm's per-method closure: begin a scope, inject an
implicit `this` binding (already `Defined`), resolve the method as a
function with the `Method` marker, end the scope (also on error), and
collect the first error. -/
def resolveMethods (fuel : Nat) (methods : List (Token × List Token × List Stmt))
    (r : RState) : Except Err Unit × RState :=
  match fuel with
  | 0 => (.error .fuel, r)
  | fuel + 1 =>
    match methods with
    | [] => (.ok (), r)
    | m :: rest =>
        let thisTok : Token := ⟨.kwThis, "this", 0⟩
        let r1 := { r with scopes :=
          [("this", VarState.defined thisTok)] :: r.scopes }
        match resolveFunction fuel m.2.1 m.2.2 FunctionType.method r1 with
        | (.error e1, r2) =>
            (.error e1, { r2 with scopes := r2.scopes.tail })
        | (.ok _, r2) =>
            resolveMethods fuel rest ({ r2 with scopes := r2.scopes.tail })

end

/-- `Resolver::run`: resolve everything, then report the first
never-`Read` variable still present in a surviving scope (the source
iterates the scope Vec outermost-first, hence the `reverse`). -/
def runResolver (fuel : Nat) (stmts : List Stmt) :
    Except Err (List (Nat × Nat)) :=
  let r0 : RState := ⟨[[]], [], FunctionType.none⟩
  match resolveStmts fuel stmts r0 with
  | (.error e1, _) => .error e1
  | (.ok _, r1) =>
      match (r1.scopes.reverse.flatMap (fun sc => sc.map Prod.snd)).find?
          (fun vs => !vs.isRead) with
      | some vs =>
          .error (.lox (.resolverError vs.token
            ("Variable '" ++ vs.token.lexeme ++ "' declared and not used")))
      | none => .ok r1.exprIdScopeDepth


/-- `FunctionKind` from parser.rs (its `Debug` rendering feeds the error
messages). -/
inductive FunctionKind where
  | function
  | method

def FunctionKind.debugName : FunctionKind → String
  | .function => "Function"
  | .method => "Method"

/-- `MAX_FUN_ARGUMENTS` from parser.rs. -/
def MAX_FUN_ARGUMENTS : Nat := 255

/-- The parser's state: the remaining token iterator and the two
REPL-expression flags, plus the node-id counter.  The counter is modelled
from the spec (§9: node ids are "a monotonically increasing counter
assigned at parse time, stored in every variable-reference/assignment
node"); the snapshot's parser.rs predates node ids and builds
`Expr::Variable(token)` / `Expr::Assign(token, value)` without them. -/
structure PState where
  tokens : List Token
  allowOnlyExpression : Bool
  foundOnlyExpr : Bool
  nextId : Nat

/-- `Parser::new`. -/
def PState.new (tokens : List Token) (allowOnlyExpression : Bool) : PState :=
  ⟨tokens, allowOnlyExpression, false, 0⟩

/-- Mint the next node id. -/
def mint (s : PState) : Nat × PState :=
  match s with
  | ⟨toks, aoe, foe, nid⟩ => (nid, ⟨toks, aoe, foe, nid + 1⟩)

/-- `tokens_iter.peek()`. -/
def peekTok (s : PState) : Option Token :=
  s.tokens.head?

/-- `tokens_iter.next_if(p)`. -/
def nextIf (p : Token → Bool) (s : PState) : Option Token × PState :=
  match s with
  | ⟨toks, aoe, foe, nid⟩ =>
      match toks with
      | [] => (none, ⟨toks, aoe, foe, nid⟩)
      | t :: rest =>
          if p t then (some t, ⟨rest, aoe, foe, nid⟩)
          else (none, ⟨t :: rest, aoe, foe, nid⟩)

/-- `Parser::consume`: peek, take the token on a kind match, report a parse
error otherwise (the token is not consumed); an exhausted iterator is the
source's `todo!()` panic. -/
def consume (tt : TokenType) (msg : String) (s : PState) :
    Except Err Token × PState :=
  match s with
  | ⟨toks, aoe, foe, nid⟩ =>
      match toks with
      | [] => (.error .panicked, ⟨toks, aoe, foe, nid⟩)
      | t :: rest =>
          if t.kind = tt then (.ok t, ⟨rest, aoe, foe, nid⟩)
          else (.error (.lox (.parserError t.line msg)), ⟨t :: rest, aoe, foe, nid⟩)

/-- `Parser::synchronize`'s `should_consume`. -/
def shouldConsume (t : Token) : Bool :=
  t.kind = .semicolon ||
    !(t.kind = .kwClass || t.kind = .kwFun || t.kind = .kwVar || t.kind = .kwFor
      || t.kind = .kwIf || t.kind = .kwWhile || t.kind = .kwPrint
      || t.kind = .kwReturn)

/-- `Parser::synchronize`: discard tokens up to and including the next `;`,
or up to (not including) the next statement-starting keyword. -/
def synchronize : List Token → List Token
  | [] => []
  | t :: rest =>
      if shouldConsume t then
        if t.kind = .semicolon then rest else synchronize rest
      else t :: rest

/-- The parameter loop of `Parser::fun_declaration`: the cap check
(`parameters.len() > 255`) runs at LOOP ENTRY, before the next parameter is
consumed; then an identifier is required and a trailing comma continues the
loop.  Only the token list is touched. -/
def paramLoop (params : List Token) (tokenName : Token) (toks : List Token) :
    Except Err (List Token) × List Token :=
  if params.length > MAX_FUN_ARGUMENTS then
    (.error (.lox (.runtimeError tokenName
      "Reached maximum number of parameters(255)")), toks)
  else
    match toks with
    | [] => (.error .panicked, toks)
    | t :: rest =>
        if t.kind = .identifier then
          match rest with
          | t2 :: rest2 =>
              if t2.kind = .comma then paramLoop (params ++ [t]) tokenName rest2
              else (.ok (params ++ [t]), rest)
          | [] => (.ok (params ++ [t]), rest)
        else (.error (.lox (.parserError t.line "Expected identifier")), t :: rest)

/-- Lines 341-357 of parser.rs, factored out as a pure function: the
in-place rewriting of the parsed `for` pieces — inject the increment after
the body, wrap in a `while` (true-literal condition when absent), and
prepend the initializer in a block when present. -/
def forDesugar (init : Option Stmt) (cond : Option Expr) (increment : Option Expr)
    (body : Stmt) : Stmt :=
  let block1 :=
    match increment with
    | some i => Stmt.block [body, .expression i]
    | none => body
  let block2 :=
    match cond with
    | some c => Stmt.whileStmt c block1
    | none => Stmt.whileStmt (.bool true) block1
  match init with
  | some i => Stmt.block [i, block2]
  | none => block2

mutual

/-- `Parser::expression`. -/
def parseExpression (fuel : Nat) (s : PState) : Except Err Expr × PState :=
  match fuel with
  | 0 => (.error .fuel, s)
  | fuel + 1 => parseAssignment fuel s

/-- `Parser::assignment`: parse a conditional; on `=`, parse the value; a
bare-variable target becomes an `Assign` node, any other target is merely
REPORTED (`error(...)` is called for its side effect, its return value
dropped) and the left-hand expression is returned without error. -/
def parseAssignment (fuel : Nat) (s : PState) : Except Err Expr × PState :=
  match fuel with
  | 0 => (.error .fuel, s)
  | fuel + 1 =>
    match parseConditional fuel s with
    | (.error e1, s1) => (.error e1, s1)
    | (.ok expr, s1) =>
        match nextIf (fun t => t.kind = .equal) s1 with
        | (some _equals, s2) =>
            match parseConditional fuel s2 with
            | (.error e1, s3) => (.error e1, s3)
            | (.ok value, s3) =>
                match expr with
                | .var tok _id =>
                    match mint s3 with
                    | (id, s4) => (.ok (.assign tok value id), s4)
                | _ => (.ok expr, s3)
        | (none, s2) => (.ok expr, s2)

/-- `Parser::conditional` (ternary `?:`, right-associative). -/
def parseConditional (fuel : Nat) (s : PState) : Except Err Expr × PState :=
  match fuel with
  | 0 => (.error .fuel, s)
  | fuel + 1 =>
    match parseLogicOr fuel s with
    | (.error e1, s1) => (.error e1, s1)
    | (.ok expr, s1) =>
        match peekTok s1 with
        | some t =>
            if t.kind = .question then
              let s2 := { s1 with tokens := s1.tokens.tail }
              match parseExpression fuel s2 with
              | (.error e1, s3) => (.error e1, s3)
              | (.ok thenB, s3) =>
                  match consume .colon
                      "Expect ':' after then branch of conditional expression" s3 with
                  | (.error e1, s4) => (.error e1, s4)
                  | (.ok _, s4) =>
                      match parseConditional fuel s4 with
                      | (.error e1, s5) => (.error e1, s5)
                      | (.ok elseB, s5) => (.ok (.conditional expr thenB elseB), s5)
            else (.ok expr, s1)
        | none => (.ok expr, s1)

/-- `Parser::logic_or`. -/
def parseLogicOr (fuel : Nat) (s : PState) : Except Err Expr × PState :=
  match fuel with
  | 0 => (.error .fuel, s)
  | fuel + 1 =>
    match parseLogicAnd fuel s with
    | (.error e1, s1) => (.error e1, s1)
    | (.ok left, s1) => orLoop fuel left s1

def orLoop (fuel : Nat) (left : Expr) (s : PState) : Except Err Expr × PState :=
  match fuel with
  | 0 => (.error .fuel, s)
  | fuel + 1 =>
    match nextIf (fun t => t.kind = .kwOr) s with
    | (some _, s1) =>
        match parseLogicAnd fuel s1 with
        | (.error e1, s2) => (.error e1, s2)
        | (.ok right, s2) => orLoop fuel (.logicOr left right) s2
    | (none, s1) => (.ok left, s1)

/-- `Parser::logic_and`. -/
def parseLogicAnd (fuel : Nat) (s : PState) : Except Err Expr × PState :=
  match fuel with
  | 0 => (.error .fuel, s)
  | fuel + 1 =>
    match parseEquality fuel s with
    | (.error e1, s1) => (.error e1, s1)
    | (.ok left, s1) => andLoop fuel left s1

def andLoop (fuel : Nat) (left : Expr) (s : PState) : Except Err Expr × PState :=
  match fuel with
  | 0 => (.error .fuel, s)
  | fuel + 1 =>
    match nextIf (fun t => t.kind = .kwAnd) s with
    | (some _, s1) =>
        match parseEquality fuel s1 with
        | (.error e1, s2) => (.error e1, s2)
        | (.ok right, s2) => andLoop fuel (.logicAnd left right) s2
    | (none, s1) => (.ok left, s1)

/-- `Parser::equality`. -/
def parseEquality (fuel : Nat) (s : PState) : Except Err Expr × PState :=
  match fuel with
  | 0 => (.error .fuel, s)
  | fuel + 1 =>
    match parseComparison fuel s with
    | (.error e1, s1) => (.error e1, s1)
    | (.ok expr, s1) => equalityLoop fuel expr s1

def equalityLoop (fuel : Nat) (expr : Expr) (s : PState) :
    Except Err Expr × PState :=
  match fuel with
  | 0 => (.error .fuel, s)
  | fuel + 1 =>
    match peekTok s with
    | some t =>
        if t.kind = .bangEqual || t.kind = .equalEqual then
          let s1 := { s with tokens := s.tokens.tail }
          match parseComparison fuel s1 with
          | (.error e1, s2) => (.error e1, s2)
          | (.ok right, s2) => equalityLoop fuel (.binary expr t right) s2
        else (.ok expr, s)
    | none => (.ok expr, s)

/-- `Parser::comparison`. -/
def parseComparison (fuel : Nat) (s : PState) : Except Err Expr × PState :=
  match fuel with
  | 0 => (.error .fuel, s)
  | fuel + 1 =>
    match parseAddition fuel s with
    | (.error e1, s1) => (.error e1, s1)
    | (.ok expr, s1) => comparisonLoop fuel expr s1

def comparisonLoop (fuel : Nat) (expr : Expr) (s : PState) :
    Except Err Expr × PState :=
  match fuel with
  | 0 => (.error .fuel, s)
  | fuel + 1 =>
    match peekTok s with
    | some t =>
        if t.kind = .greater || t.kind = .greaterEqual || t.kind = .less
            || t.kind = .lessEqual then
          let s1 := { s with tokens := s.tokens.tail }
          match parseAddition fuel s1 with
          | (.error e1, s2) => (.error e1, s2)
          | (.ok right, s2) => comparisonLoop fuel (.binary expr t right) s2
        else (.ok expr, s)
    | none => (.ok expr, s)

/-- `Parser::addition`. -/
def parseAddition (fuel : Nat) (s : PState) : Except Err Expr × PState :=
  match fuel with
  | 0 => (.error .fuel, s)
  | fuel + 1 =>
    match parseMultiplication fuel s with
    | (.error e1, s1) => (.error e1, s1)
    | (.ok expr, s1) => additionLoop fuel expr s1

def additionLoop (fuel : Nat) (expr : Expr) (s : PState) :
    Except Err Expr × PState :=
  match fuel with
  | 0 => (.error .fuel, s)
  | fuel + 1 =>
    match peekTok s with
    | some t =>
        if t.kind = .plus || t.kind = .minus then
          let s1 := { s with tokens := s.tokens.tail }
          match parseMultiplication fuel s1 with
          | (.error e1, s2) => (.error e1, s2)
          | (.ok right, s2) => additionLoop fuel (.binary expr t right) s2
        else (.ok expr, s)
    | none => (.ok expr, s)

/-- `Parser::multiplication`. -/
def parseMultiplication (fuel : Nat) (s : PState) : Except Err Expr × PState :=
  match fuel with
  | 0 => (.error .fuel, s)
  | fuel + 1 =>
    match parseUnary fuel s with
    | (.error e1, s1) => (.error e1, s1)
    | (.ok expr, s1) => multiplicationLoop fuel expr s1

def multiplicationLoop (fuel : Nat) (expr : Expr) (s : PState) :
    Except Err Expr × PState :=
  match fuel with
  | 0 => (.error .fuel, s)
  | fuel + 1 =>
    match peekTok s with
    | some t =>
        if t.kind = .slash || t.kind = .star then
          let s1 := { s with tokens := s.tokens.tail }
          match parseUnary fuel s1 with
          | (.error e1, s2) => (.error e1, s2)
          | (.ok right, s2) => multiplicationLoop fuel (.binary expr t right) s2
        else (.ok expr, s)
    | none => (.ok expr, s)

/-- `Parser::unary`: on `!` or `-` the operand is parsed by `call` (the
source calls `self.call()`, not `self.unary()`). -/
def parseUnary (fuel : Nat) (s : PState) : Except Err Expr × PState :=
  match fuel with
  | 0 => (.error .fuel, s)
  | fuel + 1 =>
    match peekTok s with
    | some t =>
        if t.kind = .bang || t.kind = .minus then
          let s1 := { s with tokens := s.tokens.tail }
          match parseCall fuel s1 with
          | (.error e1, s2) => (.error e1, s2)
          | (.ok right, s2) => (.ok (.unary t right), s2)
        else parseCall fuel s
    | none => parseCall fuel s

/-- `Parser::call`: a primary followed by any number of `(...)`. -/
def parseCall (fuel : Nat) (s : PState) : Except Err Expr × PState :=
  match fuel with
  | 0 => (.error .fuel, s)
  | fuel + 1 =>
    match parsePrimary fuel s with
    | (.error e1, s1) => (.error e1, s1)
    | (.ok expr, s1) => callLoop fuel expr s1

def callLoop (fuel : Nat) (expr : Expr) (s : PState) : Except Err Expr × PState :=
  match fuel with
  | 0 => (.error .fuel, s)
  | fuel + 1 =>
    match nextIf (fun t => t.kind = .leftParen) s with
    | (some _, s1) =>
        match finishCall fuel expr s1 with
        | (.error e1, s2) => (.error e1, s2)
        | (.ok expr2, s2) => callLoop fuel expr2 s2
    | (none, s1) => (.ok expr, s1)

/-- `Parser::finish_call`: arguments unless `)` follows at once, then the
closing paren (whose token the Call node records). -/
def finishCall (fuel : Nat) (callee : Expr) (s : PState) :
    Except Err Expr × PState :=
  match fuel with
  | 0 => (.error .fuel, s)
  | fuel + 1 =>
      let needArgs : Bool :=
        match peekTok s with
        | some t => decide (t.kind ≠ .rightParen)
        | none => false
      match (if needArgs then argLoop fuel [] s
             else (.ok [], s) : Except Err (List Expr) × PState) with
      | (.error e1, s1) => (.error e1, s1)
      | (.ok args, s1) =>
          match consume .rightParen "Expected ')' after arguments" s1 with
          | (.error e1, s2) => (.error e1, s2)
          | (.ok paren, s2) => (.ok (.call callee paren args), s2)

/-- The argument loop of `finish_call`: parse an argument, push it, THEN
check the cap (`arguments.len() > 255`, reading the next token for the
error's position — `peek().unwrap()` panics only on an exhausted
iterator), and continue on a comma. -/
def argLoop (fuel : Nat) (args : List Expr) (s : PState) :
    Except Err (List Expr) × PState :=
  match fuel with
  | 0 => (.error .fuel, s)
  | fuel + 1 =>
    match parseExpression fuel s with
    | (.error e1, s1) => (.error e1, s1)
    | (.ok arg, s1) =>
        let args2 := args ++ [arg]
        if args2.length > MAX_FUN_ARGUMENTS then
          match peekTok s1 with
          | none => (.error .panicked, s1)
          | some t => (.error (.lox (.parserError t.line "Too many arguments")), s1)
        else
          match nextIf (fun t => t.kind = .comma) s1 with
          | (some _, s2) => argLoop fuel args2 s2
          | (none, s2) => (.ok args2, s2)

/-- `Parser::primary`: the token is consumed first; a non-primary token
yields "expected expression" (token kept consumed); an exhausted iterator
is the source's `todo!()`.  An identifier becomes a Variable node with a
freshly minted id. -/
def parsePrimary (fuel : Nat) (s : PState) : Except Err Expr × PState :=
  match fuel with
  | 0 => (.error .fuel, s)
  | fuel + 1 =>
    match s with
    | ⟨toks, aoe, foe, nid⟩ =>
      match toks with
      | [] => (.error .panicked, ⟨toks, aoe, foe, nid⟩)
      | t :: rest =>
        let s1 : PState := ⟨rest, aoe, foe, nid⟩
        match t.kind with
        | .kwFalse => (.ok (.bool false), s1)
        | .kwTrue => (.ok (.bool true), s1)
        | .kwNil => (.ok .nil, s1)
        | .numberLit v => (.ok (.num v), s1)
        | .stringLit v => (.ok (.str v), s1)
        | .identifier =>
            match mint s1 with
            | (id, s2) => (.ok (.var t id), s2)
        | .leftParen =>
            match parseExpression fuel s1 with
            | (.error e1, s2) => (.error e1, s2)
            | (.ok expr, s2) =>
                match consume .rightParen "Expect ')' after expression" s2 with
                | (.error e1, s3) => (.error e1, s3)
                | (.ok _, s3) => (.ok (.grouping expr), s3)
        | _ => (.error (.lox (.parserError t.line "expected expression")), s1)

/-- `Parser::declaration`: dispatch on a leading `fun` or `var`; on any
error, synchronize to the next statement boundary and return the error. -/
def parseDeclaration (fuel : Nat) (s : PState) : Except Err Stmt × PState :=
  match fuel with
  | 0 => (.error .fuel, s)
  | fuel + 1 =>
      let step : Except Err Stmt × PState :=
        match nextIf (fun t => t.kind = .kwFun) s with
        | (some _, s1) => parseFunDeclaration fuel FunctionKind.function s1
        | (none, s1) =>
            match nextIf (fun t => t.kind = .kwVar) s1 with
            | (some _, s2) => parseVarDeclaration fuel s2
            | (none, s2) => parseStatement fuel s2
      match step with
      | (.error e1, s1) => (.error e1, { s1 with tokens := synchronize s1.tokens })
      | (.ok st, s1) => (.ok st, s1)

/-- `Parser::fun_declaration` (after the `fun` keyword): name, `(`,
parameters, `)`, `{`, body (a parsed Block is unwrapped to its statement
list). -/
def parseFunDeclaration (fuel : Nat) (kind : FunctionKind) (s : PState) :
    Except Err Stmt × PState :=
  match fuel with
  | 0 => (.error .fuel, s)
  | fuel + 1 =>
    match consume .identifier ("Expected " ++ kind.debugName ++ " name") s with
    | (.error e1, s1) => (.error e1, s1)
    | (.ok tokenName, s1) =>
        match consume .leftParen ("Expected '(' after " ++ kind.debugName) s1 with
        | (.error e1, s2) => (.error e1, s2)
        | (.ok _, s2) =>
            let needParams : Bool :=
              match peekTok s2 with
              | some t => decide (t.kind ≠ .rightParen)
              | none => false
            match (if needParams then
                     match paramLoop [] tokenName s2.tokens with
                     | (res, toks) => (res, { s2 with tokens := toks })
                   else (.ok [], s2) : Except Err (List Token) × PState) with
            | (.error e1, s3) => (.error e1, s3)
            | (.ok params, s3) =>
                match consume .rightParen
                    ("Expected ')' after " ++ kind.debugName ++ " parameters.") s3 with
                | (.error e1, s4) => (.error e1, s4)
                | (.ok _, s4) =>
                    match consume .leftBrace
                        ("Expected '\x7b' before " ++ kind.debugName ++ " body.") s4 with
                    | (.error e1, s5) => (.error e1, s5)
                    | (.ok _, s5) =>
                        match parseBlock fuel s5 with
                        | (.error e1, s6) => (.error e1, s6)
                        | (.ok (Stmt.block stmts), s6) =>
                            (.ok (.function tokenName params stmts), s6)
                        | (.ok x, s6) => (.ok (.function tokenName params [x]), s6)

/-- `Parser::var_declaration` (after the `var` keyword). -/
def parseVarDeclaration (fuel : Nat) (s : PState) : Except Err Stmt × PState :=
  match fuel with
  | 0 => (.error .fuel, s)
  | fuel + 1 =>
    match consume .identifier "Expect variable name" s with
    | (.error e1, s1) => (.error e1, s1)
    | (.ok name, s1) =>
        match nextIf (fun t => t.kind = .equal) s1 with
        | (some _, s2) =>
            match parseExpression fuel s2 with
            | (.error e1, s3) => (.error e1, s3)
            | (.ok init, s3) =>
                match consume .semicolon "Expect ; after variable declaration" s3 with
                | (.error e1, s4) => (.error e1, s4)
                | (.ok _, s4) => (.ok (.varDecl name (some init)), s4)
        | (none, s2) =>
            match consume .semicolon "Expect ; after variable declaration" s2 with
            | (.error e1, s3) => (.error e1, s3)
            | (.ok _, s3) => (.ok (.varDecl name none), s3)

/-- `Parser::statement`: dispatch on `if`, `print`, `while`, `for`, `{`,
`return`, else an expression statement. -/
def parseStatement (fuel : Nat) (s : PState) : Except Err Stmt × PState :=
  match fuel with
  | 0 => (.error .fuel, s)
  | fuel + 1 =>
    match nextIf (fun t => t.kind = .kwIf) s with
    | (some _, s1) => parseIfStmt fuel s1
    | (none, s1) =>
        match nextIf (fun t => t.kind = .kwPrint) s1 with
        | (some _, s2) => parsePrintStmt fuel s2
        | (none, s2) =>
            match nextIf (fun t => t.kind = .kwWhile) s2 with
            | (some _, s3) => parseWhileStmt fuel s3
            | (none, s3) =>
                match nextIf (fun t => t.kind = .kwFor) s3 with
                | (some _, s4) => parseForStmt fuel s4
                | (none, s4) =>
                    match nextIf (fun t => t.kind = .leftBrace) s4 with
                    | (some _, s5) => parseBlock fuel s5
                    | (none, s5) =>
                        match nextIf (fun t => t.kind = .kwReturn) s5 with
                        | (some retTok, s6) => parseReturnStmt fuel retTok s6
                        | (none, s6) => parseExprStmt fuel s6

/-- `Parser::if_stmt`. -/
def parseIfStmt (fuel : Nat) (s : PState) : Except Err Stmt × PState :=
  match fuel with
  | 0 => (.error .fuel, s)
  | fuel + 1 =>
    match consume .leftParen "expected '(' after if" s with
    | (.error e1, s1) => (.error e1, s1)
    | (.ok _, s1) =>
        match parseExpression fuel s1 with
        | (.error e1, s2) => (.error e1, s2)
        | (.ok cond, s2) =>
            match consume .rightParen "expected ')' to close if conditional" s2 with
            | (.error e1, s3) => (.error e1, s3)
            | (.ok _, s3) =>
                match parseStatement fuel s3 with
                | (.error e1, s4) => (.error e1, s4)
                | (.ok thenB, s4) =>
                    match nextIf (fun t => t.kind = .kwElse) s4 with
                    | (some _, s5) =>
                        match parseStatement fuel s5 with
                        | (.error e1, s6) => (.error e1, s6)
                        | (.ok elseB, s6) =>
                            (.ok (.ifStmt cond thenB (some elseB)), s6)
                    | (none, s5) => (.ok (.ifStmt cond thenB none), s5)

/-- `Parser::expr_stmt`: in REPL mode a trailing expression right before
EOF is returned with the found-only-expr flag set and no `;` required. -/
def parseExprStmt (fuel : Nat) (s : PState) : Except Err Stmt × PState :=
  match fuel with
  | 0 => (.error .fuel, s)
  | fuel + 1 =>
    match parseExpression fuel s with
    | (.error e1, s1) => (.error e1, s1)
    | (.ok expr, s1) =>
        let nextTokenIsEof : Bool :=
          match peekTok s1 with
          | some t => decide (t.kind = .eof)
          | none => false
        if s1.allowOnlyExpression && nextTokenIsEof then
          (.ok (.expression expr), { s1 with foundOnlyExpr := true })
        else
          match consume .semicolon "Expected ; after expression" s1 with
          | (.error e1, s2) => (.error e1, s2)
          | (.ok _, s2) => (.ok (.expression expr), s2)

/-- `Parser::block` (after `{`): declarations until `}` or EOF, then the
closing brace. -/
def parseBlock (fuel : Nat) (s : PState) : Except Err Stmt × PState :=
  match fuel with
  | 0 => (.error .fuel, s)
  | fuel + 1 =>
    match blockLoop fuel [] s with
    | (.error e1, s1) => (.error e1, s1)
    | (.ok stmts, s1) =>
        match consume .rightBrace "Expected '\x7d' after block." s1 with
        | (.error e1, s2) => (.error e1, s2)
        | (.ok _, s2) => (.ok (.block stmts), s2)

def blockLoop (fuel : Nat) (stmts : List Stmt) (s : PState) :
    Except Err (List Stmt) × PState :=
  match fuel with
  | 0 => (.error .fuel, s)
  | fuel + 1 =>
      let continueLoop : Bool :=
        match peekTok s with
        | some t => !(decide (t.kind = .rightBrace) || decide (t.kind = .eof))
        | none => false
      if continueLoop then
        match parseDeclaration fuel s with
        | (.error e1, s1) => (.error e1, s1)
        | (.ok st, s1) => blockLoop fuel (stmts ++ [st]) s1
      else (.ok stmts, s)

/-- `Parser::print_stmt` (after `print`). -/
def parsePrintStmt (fuel : Nat) (s : PState) : Except Err Stmt × PState :=
  match fuel with
  | 0 => (.error .fuel, s)
  | fuel + 1 =>
    match parseExpression fuel s with
    | (.error e1, s1) => (.error e1, s1)
    | (.ok expr, s1) =>
        match consume .semicolon "Expected ; after value" s1 with
        | (.error e1, s2) => (.error e1, s2)
        | (.ok _, s2) => (.ok (.print expr), s2)

/-- `Parser::while_stmt` (after `while`). -/
def parseWhileStmt (fuel : Nat) (s : PState) : Except Err Stmt × PState :=
  match fuel with
  | 0 => (.error .fuel, s)
  | fuel + 1 =>
    match consume .leftParen "Expected '(' before condition" s with
    | (.error e1, s1) => (.error e1, s1)
    | (.ok _, s1) =>
        match parseExpression fuel s1 with
        | (.error e1, s2) => (.error e1, s2)
        | (.ok cond, s2) =>
            match consume .rightParen "Expected ')' after condition" s2 with
            | (.error e1, s3) => (.error e1, s3)
            | (.ok _, s3) =>
                match parseStatement fuel s3 with
                | (.error e1, s4) => (.error e1, s4)
                | (.ok body, s4) => (.ok (.whileStmt cond body), s4)

/-- `Parser::return_stmt` (after `return`, whose token the statement
records; the snapshot's parser builds `Stmt::Return(expr)` while stmt.rs
declares `Return(Token, Expr)` — the consumed keyword token fills the
slot).  A `;` right away means a nil return value. -/
def parseReturnStmt (fuel : Nat) (retTok : Token) (s : PState) :
    Except Err Stmt × PState :=
  match fuel with
  | 0 => (.error .fuel, s)
  | fuel + 1 =>
      let hasValue : Bool :=
        match peekTok s with
        | some t => decide (t.kind ≠ .semicolon)
        | none => false
      match (if hasValue then parseExpression fuel s
             else (.ok Expr.nil, s) : Except Err Expr × PState) with
      | (.error e1, s1) => (.error e1, s1)
      | (.ok expr, s1) =>
          match consume .semicolon "Expected ; after return expression" s1 with
          | (.error e1, s2) => (.error e1, s2)
          | (.ok _, s2) => (.ok (.returnStmt retTok expr), s2)

/-- `Parser::for_stmt` (after `for`): the desugaring into
initializer + while + injected post-body increment, built exactly as in
parser.rs lines 341-357. -/
def parseForStmt (fuel : Nat) (s : PState) : Except Err Stmt × PState :=
  match fuel with
  | 0 => (.error .fuel, s)
  | fuel + 1 =>
    match consume .leftParen "Expected '(' after for" s with
    | (.error e1, s1) => (.error e1, s1)
    | (.ok _, s1) =>
        let fr := nextIf (fun t => t.kind = .semicolon || t.kind = .kwVar) s1
        match (match fr.1.map Token.kind with
                   | some TokenType.kwVar =>
                       match parseVarDeclaration fuel fr.2 with
                       | (.error e1, sA) => (.error e1, sA)
                       | (.ok st, sA) => (.ok (some st), sA)
                   | some TokenType.semicolon => (.ok none, fr.2)
                   | _ =>
                       match parseExprStmt fuel fr.2 with
                       | (.error e1, sA) => (.error e1, sA)
                       | (.ok st, sA) => (.ok (some st), sA)
                   : Except Err (Option Stmt) × PState) with
            | (.error e1, s3) => (.error e1, s3)
            | (.ok init, s3) =>
                let condIsAbsent : Bool :=
                  match peekTok s3 with
                  | some t => decide (t.kind = .semicolon)
                  | none => false
                match (if condIsAbsent then (.ok none, s3)
                       else
                         match parseExpression fuel s3 with
                         | (.error e1, sA) => (.error e1, sA)
                         | (.ok c, sA) => (.ok (some c), sA)
                       : Except Err (Option Expr) × PState) with
                | (.error e1, s4) => (.error e1, s4)
                | (.ok cond, s4) =>
                    match consume .semicolon "Expected ';' after conditional" s4 with
                    | (.error e1, s5) => (.error e1, s5)
                    | (.ok _, s5) =>
                        let incrIsAbsent : Bool :=
                          match peekTok s5 with
                          | some t => decide (t.kind = .rightParen)
                          | none => false
                        match (if incrIsAbsent then (.ok none, s5)
                               else
                                 match parseExpression fuel s5 with
                                 | (.error e1, sA) => (.error e1, sA)
                                 | (.ok i, sA) => (.ok (some i), sA)
                               : Except Err (Option Expr) × PState) with
                        | (.error e1, s6) => (.error e1, s6)
                        | (.ok increment, s6) =>
                            match consume .rightParen "Expected ')' after for clauses" s6 with
                            | (.error e1, s7) => (.error e1, s7)
                            | (.ok _, s7) =>
                                match parseStatement fuel s7 with
                                | (.error e1, s8) => (.error e1, s8)
                                | (.ok body, s8) =>
                                    (.ok (forDesugar init cond increment body), s8)

end

/-! Concrete tokens, programs and values used by the theorems below. -/

def idTok (name : String) : Token := ⟨.identifier, name, 1⟩

def starTok : Token := ⟨.star, "*", 1⟩
def slashTok : Token := ⟨.slash, "/", 1⟩
def minusTok : Token := ⟨.minus, "-", 1⟩
def plusTok : Token := ⟨.plus, "+", 1⟩
def lessTok : Token := ⟨.less, "<", 1⟩
def eqeqTok : Token := ⟨.equalEqual, "==", 1⟩
def bangeqTok : Token := ⟨.bangEqual, "!=", 1⟩
def commaTok : Token := ⟨.comma, ",", 1⟩
def lparenTok : Token := ⟨.leftParen, "(", 1⟩
def rparenTok : Token := ⟨.rightParen, ")", 1⟩
def lbraceTok : Token := ⟨.leftBrace, "\x7b", 1⟩
def rbraceTok : Token := ⟨.rightBrace, "\x7d", 1⟩
def semiTok : Token := ⟨.semicolon, ";", 1⟩
def equalTok : Token := ⟨.equal, "=", 1⟩
def eofTok : Token := ⟨.eof, "", 1⟩
def aTok : Token := idTok "a"
def yTok : Token := idTok "y"
def iTok : Token := idTok "i"
def fTok : Token := idTok "f"
def cTok : Token := idTok "C"
def xTok : Token := idTok "x"
def initIdTok : Token := idTok "init"
def thisTok : Token := ⟨.kwThis, "this", 1⟩

/-- C2 input: a statement whose execution raises a runtime error
(`-"a"`), followed by a variable declaration. -/
def c2ErrStmt : Stmt := .expression (.unary minusTok (.str "a"))

def c2Prog : List Stmt := [c2ErrStmt, .varDecl yTok (some (.num 1))]

/-- C3 input: `class C { init(x) { this.x = x; } } print C(5);`. -/
def c3Prog : List Stmt :=
  [ .classDecl cTok [(initIdTok, [xTok],
      [.expression (.set (.this thisTok 0) xTok (.var xTok 1))])]
  , .print (.call (.var cTok 2) rparenTok [.num 5]) ]

/-- C4 input: an `init` method whose body evaluates `-"a"` (a runtime
error), on a class value that carries it. -/
def c4InitMethod : UserFunction := ⟨[], [.expression (.unary minusTok (.str "a"))], 1⟩

def c4Class : LoxClassData := ⟨cTok, [("init", c4InitMethod)]⟩

/-- C5 inputs: `{ var a = a; }`, then `var a; var a;`, then a nested
re-declaration that also reads both bindings (so the unused-variable pass
stays quiet). -/
def c5SelfInit : List Stmt := [.block [.varDecl aTok (some (.var aTok 0))]]

def c5DupDecl : List Stmt := [.varDecl aTok none, .varDecl aTok none]

def c5NestedShadow : List Stmt :=
  [ .varDecl aTok (some (.num 1))
  , .block [.varDecl aTok (some (.num 2)), .print (.var aTok 0)]
  , .print (.var aTok 1) ]

/-- C6 input: the token sequence of
`for (var i = 0; i < 3; i = i + 1) print i;`. -/
def c6Tokens : List Token :=
  [ ⟨.kwFor, "for", 1⟩, lparenTok, ⟨.kwVar, "var", 1⟩, iTok, equalTok,
    ⟨.numberLit 0, "0", 1⟩, semiTok,
    iTok, lessTok, ⟨.numberLit 3, "3", 1⟩, semiTok,
    iTok, equalTok, iTok, plusTok, ⟨.numberLit 1, "1", 1⟩, rparenTok,
    ⟨.kwPrint, "print", 1⟩, iTok, semiTok, eofTok ]

/-- The statement the parser produces for `c6Tokens` (node ids as minted by
the counter: 0 for the condition's `i`, 2 for the increment's right-hand
`i`, 3 for the assignment node, 4 for `print i`; id 1 was minted for the
assignment target while it was still parsed as a variable reference and is
discarded with that node). -/
def c6Desugared : Stmt :=
  .block
    [ .varDecl iTok (some (.num 0))
    , .whileStmt (.binary (.var iTok 0) lessTok (.num 3))
        (.block
          [ .print (.var iTok 4)
          , .expression (.assign iTok (.binary (.var iTok 2) plusTok (.num 1)) 3) ]) ]

/-- C7 inputs: `n` parameters (identifier `a` separated by commas). -/
def paramTok : Token := idTok "a"

def paramStream : Nat → List Token
  | 0 => []
  | 1 => [paramTok]
  | n + 2 => paramTok :: commaTok :: paramStream (n + 1)

/-- The token tail handed to `fun_declaration` (after the `fun` keyword):
`f ( a , a , ... a ) { }`. -/
def funDeclTokens (n : Nat) : List Token :=
  fTok :: lparenTok :: (paramStream n ++ [rparenTok, lbraceTok, rbraceTok, eofTok])

/-- `n` call arguments, each the literal `1`. -/
def numTok1 : Token := ⟨.numberLit 1, "1", 1⟩

def argStream : Nat → List Token
  | 0 => []
  | 1 => [numTok1]
  | n + 2 => numTok1 :: commaTok :: argStream (n + 1)

/-- The token tail handed to `finish_call` (after the callee and `(`):
`1 , 1 , ... 1 ) ; <eof>`. -/
def callArgTokens (n : Nat) : List Token :=
  argStream n ++ [rparenTok, semiTok, eofTok]

/-- C10 input: a user function with no parameters and an empty body. -/
def c10Fun : UserFunction := ⟨[], [], 1⟩

/-- Specification-side definition (from the claim's words, for the
refinement comparison): the desugared form
`Block[init, While(cond, Block[body, Expression(incr)])]`, omitting the
outer Block when there is no initializer, the inner Block when there is no
increment, and using a true-literal condition when the condition is
absent. -/
def desugarFor (init : Option Stmt) (cond : Option Expr) (incr : Option Expr)
    (body : Stmt) : Stmt :=
  let inner :=
    match incr with
    | some i => Stmt.block [body, Stmt.expression i]
    | none => body
  let loop :=
    match cond with
    | some c => Stmt.whileStmt c inner
    | none => Stmt.whileStmt (.bool true) inner
  match init with
  | some i => Stmt.block [i, loop]
  | none => loop

/-! The claims. -/

/-- C1: the spec claims `10 / 0` and `10 * 0` both produce a reported
runtime error (exact parity between the two operators).  In the code the
zero check sits only on the `Star` arm (carrying the division error
message "Cannot divide by zero") while the `Slash` arm divides
unconditionally: `10 * 0` errors, `10 / 0` returns Ok (IEEE `inf` in the
Rust f64; the model's exact division), and nonzero right operands give the
ordinary product and quotient for both operators. -/
theorem c1_zero_check_on_star_not_on_slash :
    binaryOp starTok (.number 10) (.number 0)
        = .error (.lox (.runtimeError starTok "Cannot divide by zero"))
    ∧ (binaryOp slashTok (.number 10) (.number 0)).isOk = true
    ∧ binaryOp starTok (.number 10) (.number 2) = .ok (.number 20)
    ∧ binaryOp slashTok (.number 10) (.number 2) = .ok (.number 5) :=
  ⟨rfl, rfl, rfl, rfl⟩

/-- C2 counterexample: the claim says a runtime error in statement `i`
stops interpretation and no later statement's effect is observable.  On
`c2Prog` the first statement errors (the error is reported), yet the
second statement's `var y = 1;` binding is present in the top-level local
environment afterwards. -/
theorem c2_counterexample_later_statement_effect_observable :
    (interpret 100 c2Prog initialState).2.runtimeReports
        = [.runtimeError minusTok "Operand must be a number"]
    ∧ ((interpret 100 c2Prog initialState).2.envs.get? 1).map EnvData.vars
        = some [("y", some (.number 1))] :=
  ⟨rfl, rfl⟩

/-- C2 (amended): if executing a top-level statement returns a runtime
error, `interpret` hands the error to `report_runtime` and CONTINUES with
the remaining statements (their effects are observable; the
counterexample exhibits one). -/
theorem c2_error_reported_then_interpretation_continues (fuel : Nat)
    (st : Stmt) (rest : List Stmt) (s s1 : InterpState) (e : LoxError)
    (h : execute fuel st s = (.error (.lox e), s1)) :
    interpret fuel (st :: rest) s = interpret fuel rest (reportRuntime e s1) := by
  simp only [interpret, h]

/-- C2 witness: the amended theorem applied to `c2Prog`. -/
theorem c2_witness :
    interpret 100 c2Prog initialState
      = interpret 100 [Stmt.varDecl yTok (some (.num 1))]
          (reportRuntime (.runtimeError minusTok "Operand must be a number")
            initialState) :=
  c2_error_reported_then_interpretation_continues 100 c2ErrStmt
    [Stmt.varDecl yTok (some (.num 1))] initialState initialState
    (.runtimeError minusTok "Operand must be a number") rfl

/-- C5: the resolver rejects `{ var a = a; }` (reading a variable inside
its own initializer) and rejects `var a; var a;` (duplicate declaration in
one scope), but accepts re-declaring the same name in a nested inner
block. -/
theorem c5_resolver_rejects_self_init_and_duplicates_accepts_shadowing :
    runResolver 100 c5SelfInit
        = .error (.lox (.resolverError aTok
            "Can't read local variable in its own initializer."))
    ∧ runResolver 100 c5DupDecl
        = .error (.lox (.resolverError aTok "Variable 'a' already declared"))
    ∧ runResolver 100 c5NestedShadow = .ok [(0, 0), (1, 0)] :=
  ⟨rfl, rfl, rfl⟩

/-- C8: `==` and `!=` evaluate to a Boolean on EVERY pair of runtime
values (never an error); the equality is the structural `Object.beq` —
payload equality on same-variant Boolean/Number/String/Nil, `false` on any
differing variants, and `false` on any two callables. -/
theorem c8_equality_total_boolean_and_structural :
    (∀ t : Token, ∀ l r : Object, t.kind = .equalEqual →
        binaryOp t l r = .ok (.boolean (Object.beq l r)))
    ∧ (∀ t : Token, ∀ l r : Object, t.kind = .bangEqual →
        binaryOp t l r = .ok (.boolean (!Object.beq l r)))
    ∧ (∀ x y : Bool, Object.beq (.boolean x) (.boolean y) = (x == y))
    ∧ (∀ x y : Int, Object.beq (.number x) (.number y) = (x == y))
    ∧ (∀ x y : String, Object.beq (.string x) (.string y) = (x == y))
    ∧ Object.beq .nil .nil = true
    ∧ (∀ c1 c2 : Callable, Object.beq (.call c1) (.call c2) = false)
    ∧ (∀ l r : Object, l.tag ≠ r.tag → Object.beq l r = false) := by
  refine ⟨?_, ?_, ?_, ?_, ?_, rfl, ?_, ?_⟩
  · intro t l r h
    obtain ⟨k, lx, ln⟩ := t
    cases h
    rfl
  · intro t l r h
    obtain ⟨k, lx, ln⟩ := t
    cases h
    rfl
  · intro x y; rfl
  · intro x y; rfl
  · intro x y; rfl
  · intro c1 c2; rfl
  · intro l r h
    cases l <;> cases r <;> first
      | rfl
      | (exact absurd rfl h)

/-- C8 witness: the equality arms and the cross-variant rule at concrete
values. -/
theorem c8_witness :
    binaryOp eqeqTok (.number 1) (.string "a")
        = .ok (.boolean (Object.beq (.number 1) (.string "a")))
    ∧ binaryOp bangeqTok .nil (.boolean false)
        = .ok (.boolean (!Object.beq .nil (.boolean false)))
    ∧ Object.beq (.number 1) (.string "a") = false :=
  ⟨c8_equality_total_boolean_and_structural.1 eqeqTok (.number 1) (.string "a") rfl,
   c8_equality_total_boolean_and_structural.2.1 bangeqTok .nil (.boolean false) rfl,
   c8_equality_total_boolean_and_structural.2.2.2.2.2.2.2 (.number 1) (.string "a")
     (by decide)⟩

/-- C9: executing a block creates a child environment whose enclosing link
is the current environment (conjuncts 3 and 4 decompose `visit_block_stmt`
and `execute_block` exactly: a fresh heap slot holding
`⟨[], some s.localEnv⟩` becomes the current environment for the block's
statements), and on EVERY exit path — normal completion, a propagated
error (runtime error or return), or the fuel artifact — the
current-environment reference is restored to what it was before the block
(conjuncts 1 and 2). -/
theorem c9_block_child_environment_and_restoration :
    (∀ fuel stmts s, (execute fuel (.block stmts) s).2.localEnv = s.localEnv)
    ∧ (∀ fuel stmts env s,
        (executeBlock fuel stmts env s).2.localEnv = s.localEnv)
    ∧ (∀ fuel stmts s,
        execute (fuel + 1) (.block stmts) s
          = executeBlock fuel stmts ⟨[], some s.localEnv⟩ s)
    ∧ (∀ fuel stmts env s,
        executeBlock (fuel + 1) stmts env s
          = (match execStmts fuel stmts
                { s with envs := s.envs ++ [env], localEnv := s.envs.length } with
             | (res, s2) => (res, { s2 with localEnv := s.localEnv }))) := by
  have hblock : ∀ fuel stmts env s,
      (executeBlock fuel stmts env s).2.localEnv = s.localEnv := by
    intro fuel stmts env s
    match fuel with
    | 0 => rfl
    | fuel + 1 =>
        show (match execStmts fuel stmts _ with
              | (res, s2) => (res, { s2 with localEnv := s.localEnv })).2.localEnv
            = s.localEnv
        rcases execStmts fuel stmts _ with ⟨res, s2⟩
        rfl
  refine ⟨?_, hblock, ?_, ?_⟩
  · intro fuel stmts s
    match fuel with
    | 0 => rfl
    | fuel + 1 => exact hblock fuel stmts ⟨[], some s.localEnv⟩ s
  · intro fuel stmts s; rfl
  · intro fuel stmts env s; rfl

/-- C10: per `UserFunction::call`, a body that runs to completion (never
reaching a `return`) makes the call yield `Nil`; a body that unwinds with
the `Return` control-flow error makes the call yield the carried value —
the return is absorbed at the call boundary, not observable as an error
outside it; and `visit_return_stmt` itself evaluates the expression and
raises exactly that `Return` error. -/
theorem c10_user_function_call_return_protocol :
    (∀ fuel : Nat, ∀ f : UserFunction, ∀ args : List Object, ∀ s s1 : InterpState,
        executeBlock fuel f.body (userFunctionParamEnv f args) s = (.ok (), s1)
          → callUser (fuel + 1) f args s = (.ok .nil, s1))
    ∧ (∀ fuel : Nat, ∀ f : UserFunction, ∀ args : List Object, ∀ v : Object,
        ∀ s s1 : InterpState,
        executeBlock fuel f.body (userFunctionParamEnv f args) s
            = (.error (.lox (.ret v)), s1)
          → callUser (fuel + 1) f args s = (.ok v, s1))
    ∧ (∀ fuel : Nat, ∀ tok : Token, ∀ e : Expr, ∀ v : Object, ∀ s s1 : InterpState,
        evaluate fuel e s = (.ok v, s1)
          → execute (fuel + 1) (.returnStmt tok e) s
              = (.error (.lox (.ret v)), s1)) := by
  refine ⟨?_, ?_, ?_⟩
  · intro fuel f args s s1 h
    simp only [callUser, h]
  · intro fuel f args v s s1 h
    simp only [callUser, h]
  · intro fuel tok e v s s1 h
    simp only [execute, h]

/-- C10 witness: the protocol applied to a concrete empty-bodied function
(the body completes, the call yields Nil) and to a concrete return
statement. -/
theorem c10_witness :
    callUser 6 c10Fun [] initialState
        = (.ok .nil, (executeBlock 5 c10Fun.body
            (userFunctionParamEnv c10Fun []) initialState).2)
    ∧ execute 6 (.returnStmt thisTok (.num 7)) initialState
        = (.error (.lox (.ret (.number 7))), initialState) :=
  ⟨c10_user_function_call_return_protocol.1 5 c10Fun [] initialState
      (executeBlock 5 c10Fun.body (userFunctionParamEnv c10Fun []) initialState).2 rfl,
   c10_user_function_call_return_protocol.2.2 5 thisTok (.num 7) (.number 7)
      initialState initialState rfl⟩

/-- C3: the claim (and spec) say `C(5)` on a class with an `init(x)` method
constructs a fresh instance, runs `init` bound to it, and a field read then
yields 5.  `visit_class_stmt` instead builds the class value with an EMPTY
method table (`LoxClass::new(token.clone(), vec![])`, discarding its
`methods` parameter), so the declared `init` is lost: the class's arity is
0, `C(5)` fails the arity check with "Expect 0 arguments but found 1",
nothing is printed, and no instance is ever constructed.  The resolver
conjunct shows the program itself is well-formed. -/
theorem c3_class_declaration_discards_methods :
    runResolver 100 c3Prog = .ok [(0, 1), (1, 0), (2, 0)]
    ∧ (interpret 100 c3Prog
          (addExprIdsDepth initialState [(0, 1), (1, 0), (2, 0)])).2.runtimeReports
        = [.runtimeError rparenTok "Expect 0 arguments but found 1"]
    ∧ (interpret 100 c3Prog
          (addExprIdsDepth initialState [(0, 1), (1, 0), (2, 0)])).2.output = []
    ∧ (interpret 100 c3Prog
          (addExprIdsDepth initialState [(0, 1), (1, 0), (2, 0)])).2.instances = []
    ∧ ((interpret 100 c3Prog
          (addExprIdsDepth initialState [(0, 1), (1, 0), (2, 0)])).2.envs.get? 1).map
            EnvData.vars
        = some [("C", some (.call (.klass ⟨cTok, []⟩)))] :=
  ⟨rfl, rfl, rfl, rfl, rfl⟩

/-- C4: the claim (and spec) say a runtime error raised by an `init` body
propagates to the caller of the class-call expression and that no error is
silently swallowed.  `LoxClass::call` invokes the bound `init` as the
unused value of an `Option::map` and returns `Ok(instance)` regardless:
on a class whose `init` body evaluates `-"a"`, the very invocation
`LoxClass::call` performs (first conjunct, the exact bound call it makes on
the freshly allocated instance 0) returns the runtime error, yet the class
call returns the instance with `Ok` and the error is recorded nowhere. -/
theorem c4_class_call_discards_init_error :
    (callUser 100
        (bindMethod { initialState with instances := [⟨c4Class, []⟩] }
          c4InitMethod 0).1 []
        (bindMethod { initialState with instances := [⟨c4Class, []⟩] }
          c4InitMethod 0).2).1
      = .error (.lox (.runtimeError minusTok "Operand must be a number"))
    ∧ (classCall 101 c4Class [] initialState).1 = .ok (.classInstance 0)
    ∧ (classCall 101 c4Class [] initialState).2.runtimeReports = [] :=
  ⟨rfl, rfl, rfl⟩

/-- Bridge: the source's in-place rewriting of the `for` pieces equals the
claim's desugared form. -/
theorem forDesugar_eq_desugarFor (i : Option Stmt) (c : Option Expr)
    (n : Option Expr) (b : Stmt) : forDesugar i c n b = desugarFor i c n b := by
  cases i <;> cases c <;> cases n <;> rfl

/-- C6: every `for` statement the parser accepts is the desugared form
`Block[init, While(cond, Block[body, Expression(incr)])]` — outer Block
omitted without an initializer, inner Block without an increment,
true-literal condition when absent (first conjunct, over every token
stream and fuel).  In particular `for (var i = 0; i < 3; i = i + 1)
print i;` parses to exactly that form, resolves, prints 0, 1, 2 in order
with no runtime error, and afterwards no `i` binding is visible: the
current environment is back to the top-level one and neither it nor the
global environment contains `i`. -/
theorem c6_for_desugars_to_while_and_runs :
    (∀ fuel : Nat, ∀ s s2 : PState, ∀ res : Stmt,
        parseForStmt (fuel + 1) s = (.ok res, s2)
          → ∃ init cond incr body, res = desugarFor init cond incr body)
    ∧ parseDeclaration 100 (PState.new c6Tokens false)
        = (.ok c6Desugared, ⟨[eofTok], false, false, 5⟩)
    ∧ runResolver 100 [c6Desugared] = .ok [(0, 0), (4, 1), (2, 1), (3, 1)]
    ∧ (interpret 100 [c6Desugared] (addExprIdsDepth initialState
          [(0, 0), (4, 1), (2, 1), (3, 1)])).2.output
        = [.number 0, .number 1, .number 2]
    ∧ (interpret 100 [c6Desugared] (addExprIdsDepth initialState
          [(0, 0), (4, 1), (2, 1), (3, 1)])).2.runtimeReports = []
    ∧ (interpret 100 [c6Desugared] (addExprIdsDepth initialState
          [(0, 0), (4, 1), (2, 1), (3, 1)])).2.localEnv = 1
    ∧ ((interpret 100 [c6Desugared] (addExprIdsDepth initialState
          [(0, 0), (4, 1), (2, 1), (3, 1)])).2.envs.get? 1).map
            (fun ed => List.lookup "i" ed.vars) = some none
    ∧ ((interpret 100 [c6Desugared] (addExprIdsDepth initialState
          [(0, 0), (4, 1), (2, 1), (3, 1)])).2.envs.get? 0).map
            (fun ed => List.lookup "i" ed.vars) = some none := by
  refine ⟨?_, rfl, rfl, rfl, rfl, rfl, rfl, rfl⟩
  intro fuel s s2 res h
  simp only [parseForStmt] at h
  repeat' split at h
  all_goals simp at h
  obtain ⟨h1, -⟩ := h
  subst h1
  exact ⟨_, _, _, _, forDesugar_eq_desugarFor _ _ _ _⟩

/-- C6 witness: the desugar-shape conjunct applied to the concrete
for-loop token stream (the tokens after the `for` keyword). -/
theorem c6_witness :
    ∃ init cond incr body, c6Desugared = desugarFor init cond incr body :=
  c6_for_desugars_to_while_and_runs.1 97
    ⟨c6Tokens.drop 1, false, false, 0⟩ ⟨[eofTok], false, false, 5⟩
    c6Desugared rfl

theorem parseExpression_numLit (g : Nat) (aoe foe : Bool) (nid : Nat)
    (t : Token) (rest : List Token)
    (ht : t.kind = .comma ∨ t.kind = .rightParen) :
    parseExpression (g + 12) ⟨numTok1 :: t :: rest, aoe, foe, nid⟩
      = (.ok (.num 1), ⟨t :: rest, aoe, foe, nid⟩) := by
  rcases ht with h | h <;>
    (obtain ⟨k, lx, ln⟩ := t; cases h;
     simp [parseExpression, parseAssignment, parseConditional, parseLogicOr,
       parseLogicAnd, parseEquality, parseComparison, parseAddition,
       parseMultiplication, parseUnary, parseCall, parsePrimary, orLoop,
       andLoop, equalityLoop, comparisonLoop, additionLoop,
       multiplicationLoop, callLoop, peekTok, nextIf, numTok1])

theorem paramLoop_ok (n : Nat) : ∀ acc : List Token, ∀ tname t : Token,
    ∀ rest : List Token, t.kind ≠ .comma → acc.length + n + 1 ≤ 256 →
    paramLoop acc tname (paramStream (n + 1) ++ t :: rest)
      = (.ok (acc ++ List.replicate (n + 1) paramTok), t :: rest) := by
  induction n with
  | zero =>
      intro acc tname t rest ht h
      simp only [paramStream, List.cons_append, List.nil_append]
      rw [paramLoop]
      simp [show ¬(acc.length > MAX_FUN_ARGUMENTS) from by
              simp only [MAX_FUN_ARGUMENTS]; omega,
            show paramTok.kind = TokenType.identifier from rfl, ht]
  | succ n ih =>
      intro acc tname t rest ht h
      simp only [paramStream, List.cons_append]
      rw [paramLoop]
      simp only [show ¬(acc.length > MAX_FUN_ARGUMENTS) from by
              simp only [MAX_FUN_ARGUMENTS]; omega, if_false,
            show paramTok.kind = TokenType.identifier from rfl,
            show commaTok.kind = TokenType.comma from rfl, if_true, ite_true,
            ite_false, reduceIte]
      rw [ih (acc ++ [paramTok]) tname t rest ht (by simp; omega)]
      simp [List.replicate_succ]

theorem paramLoop_err (n : Nat) : ∀ acc : List Token, ∀ tname t : Token,
    ∀ rest : List Token, t.kind ≠ .comma → 257 ≤ acc.length + n + 1 →
    (paramLoop acc tname (paramStream (n + 1) ++ t :: rest)).1
      = .error (.lox (.runtimeError tname
          "Reached maximum number of parameters(255)")) := by
  induction n with
  | zero =>
      intro acc tname t rest ht h
      simp only [paramStream, List.cons_append, List.nil_append]
      rw [paramLoop]
      simp [show acc.length > MAX_FUN_ARGUMENTS from by
              simp only [MAX_FUN_ARGUMENTS]; omega]
  | succ n ih =>
      intro acc tname t rest ht h
      by_cases hc : acc.length > MAX_FUN_ARGUMENTS
      · simp only [paramStream, List.cons_append]
        rw [paramLoop]
        simp [hc]
      · simp only [paramStream, List.cons_append]
        rw [paramLoop]
        simp only [hc, if_false,
              show paramTok.kind = TokenType.identifier from rfl,
              show commaTok.kind = TokenType.comma from rfl, if_true, ite_true,
              ite_false, reduceIte]
        exact ih (acc ++ [paramTok]) tname t rest ht (by simp; omega)

theorem paramStream_append_head (m : Nat) (L : List Token) :
    (paramStream (m + 1) ++ L).head? = some paramTok := by
  cases m <;> rfl

theorem parseFunDecl_ok (n : Nat) (h1 : 1 ≤ n) (h2 : n ≤ 256) :
    parseFunDeclaration 99 .function ⟨funDeclTokens n, false, false, 0⟩
      = (.ok (.function fTok (List.replicate n paramTok) []),
         ⟨[eofTok], false, false, 0⟩) := by
  obtain ⟨m, rfl⟩ : ∃ m, n = m + 1 := ⟨n - 1, by omega⟩
  simp only [funDeclTokens]
  rw [parseFunDeclaration]
  simp only [consume, show fTok.kind = TokenType.identifier from rfl,
    show lparenTok.kind = TokenType.leftParen from rfl, ite_true, reduceIte,
    peekTok, paramStream_append_head,
    show (decide (paramTok.kind ≠ TokenType.rightParen)) = true from rfl]
  rw [paramLoop_ok m [] fTok rparenTok [lbraceTok, rbraceTok, eofTok]
      (by decide) (by simpa using h2)]
  simp [consume, parseBlock, blockLoop, peekTok,
    show rparenTok.kind = TokenType.rightParen from rfl,
    show lbraceTok.kind = TokenType.leftBrace from rfl,
    show rbraceTok.kind = TokenType.rightBrace from rfl]

theorem parseFunDecl_err (n : Nat) (h1 : 257 ≤ n) :
    (parseFunDeclaration 99 .function ⟨funDeclTokens n, false, false, 0⟩).1
      = .error (.lox (.runtimeError fTok
          "Reached maximum number of parameters(255)")) := by
  obtain ⟨m, rfl⟩ : ∃ m, n = m + 1 := ⟨n - 1, by omega⟩
  simp only [funDeclTokens]
  rw [parseFunDeclaration]
  simp only [consume, show fTok.kind = TokenType.identifier from rfl,
    show lparenTok.kind = TokenType.leftParen from rfl, ite_true, reduceIte,
    peekTok, paramStream_append_head,
    show (decide (paramTok.kind ≠ TokenType.rightParen)) = true from rfl]
  rw [paramLoop_err m [] fTok rparenTok [lbraceTok, rbraceTok, eofTok]
      (by decide) (by simpa using h1)]

theorem argStream_append_head (m : Nat) (L : List Token) :
    (argStream (m + 1) ++ L).head? = some numTok1 := by
  cases m <;> rfl

theorem argLoop_ok (n : Nat) : ∀ g : Nat, ∀ acc : List Expr, ∀ aoe foe : Bool,
    ∀ nid : Nat, ∀ rest : List Token, acc.length + n + 1 ≤ 255 →
    argLoop (n + (g + 13)) acc ⟨argStream (n + 1) ++ rparenTok :: rest, aoe, foe, nid⟩
      = (.ok (acc ++ List.replicate (n + 1) (Expr.num 1)),
         ⟨rparenTok :: rest, aoe, foe, nid⟩) := by
  induction n with
  | zero =>
      intro g acc aoe foe nid rest h
      simp only [argStream, List.cons_append, List.nil_append]
      rw [show 0 + (g + 13) = (g + 12) + 1 from by omega]
      rw [argLoop]
      rw [parseExpression_numLit g aoe foe nid rparenTok rest (Or.inr rfl)]
      simp [nextIf, MAX_FUN_ARGUMENTS,
        show ¬(acc.length + 1 > 255) from by omega,
        show ¬(rparenTok.kind = TokenType.comma) from by decide]
  | succ n ih =>
      intro g acc aoe foe nid rest h
      simp only [argStream, List.cons_append]
      rw [show (n + 1) + (g + 13) = ((n + g + 1) + 12) + 1 from by omega]
      rw [argLoop]
      rw [parseExpression_numLit (n + g + 1) aoe foe nid commaTok _ (Or.inl rfl)]
      simp only [nextIf, MAX_FUN_ARGUMENTS, List.length_append,
        List.length_cons, List.length_nil, Nat.zero_add,
        show ¬(acc.length + 1 > 255) from by omega, if_false, ite_false,
        reduceIte, show commaTok.kind = TokenType.comma from rfl, if_true,
        ite_true, show (decide True) = true from rfl]
      rw [show (n + g + 1) + 12 = n + (g + 13) from by omega]
      rw [ih g (acc ++ [Expr.num 1]) aoe foe nid rest (by simp; omega)]
      simp [List.replicate_succ]

theorem argLoop_err (n : Nat) : ∀ g : Nat, ∀ acc : List Expr, ∀ aoe foe : Bool,
    ∀ nid : Nat, ∀ rest : List Token, 256 ≤ acc.length + n + 1 →
    (argLoop (n + (g + 13)) acc
        ⟨argStream (n + 1) ++ rparenTok :: rest, aoe, foe, nid⟩).1
      = .error (.lox (.parserError 1 "Too many arguments")) := by
  induction n with
  | zero =>
      intro g acc aoe foe nid rest h
      simp only [argStream, List.cons_append, List.nil_append]
      rw [show 0 + (g + 13) = (g + 12) + 1 from by omega]
      rw [argLoop]
      rw [parseExpression_numLit g aoe foe nid rparenTok rest (Or.inr rfl)]
      simp [peekTok, MAX_FUN_ARGUMENTS,
        show (acc.length + 1 > 255) from by omega,
        show rparenTok.line = 1 from rfl]
  | succ n ih =>
      intro g acc aoe foe nid rest h
      by_cases hc : acc.length + 1 > 255
      · simp only [argStream, List.cons_append]
        rw [show (n + 1) + (g + 13) = ((n + g + 1) + 12) + 1 from by omega]
        rw [argLoop]
        rw [parseExpression_numLit (n + g + 1) aoe foe nid commaTok _ (Or.inl rfl)]
        simp [peekTok, MAX_FUN_ARGUMENTS, hc,
          show commaTok.line = 1 from rfl]
      · simp only [argStream, List.cons_append]
        rw [show (n + 1) + (g + 13) = ((n + g + 1) + 12) + 1 from by omega]
        rw [argLoop]
        rw [parseExpression_numLit (n + g + 1) aoe foe nid commaTok _ (Or.inl rfl)]
        simp only [nextIf, MAX_FUN_ARGUMENTS, List.length_append,
          List.length_cons, List.length_nil, Nat.zero_add,
          show ¬(acc.length + 1 > 255) from hc, if_false, ite_false,
          reduceIte, show commaTok.kind = TokenType.comma from rfl, if_true,
          ite_true, show (decide True) = true from rfl]
        rw [show (n + g + 1) + 12 = n + (g + 13) from by omega]
        exact ih g (acc ++ [Expr.num 1]) aoe foe nid rest (by simp; omega)

theorem finishCall_ok (n g : Nat) (callee : Expr) (h1 : 1 ≤ n) (h2 : n ≤ 255) :
    finishCall ((n + (g + 13)) + 1) callee ⟨callArgTokens n, false, false, 0⟩
      = (.ok (.call callee rparenTok (List.replicate n (Expr.num 1))),
         ⟨[semiTok, eofTok], false, false, 0⟩) := by
  obtain ⟨m, rfl⟩ : ∃ m, n = m + 1 := ⟨n - 1, by omega⟩
  simp only [callArgTokens]
  rw [finishCall]
  simp only [peekTok, argStream_append_head,
    show (decide (numTok1.kind ≠ TokenType.rightParen)) = true from rfl,
    ite_true, reduceIte, if_true]
  rw [show m + 1 + (g + 13) = m + ((g + 1) + 13) from by omega]
  rw [argLoop_ok m (g + 1) [] false false 0 [semiTok, eofTok] (by simpa using h2)]
  simp [consume, show rparenTok.kind = TokenType.rightParen from rfl]

theorem finishCall_err (n g : Nat) (callee : Expr) (h1 : 256 ≤ n) :
    (finishCall ((n + (g + 13)) + 1) callee
        ⟨callArgTokens n, false, false, 0⟩).1
      = .error (.lox (.parserError 1 "Too many arguments")) := by
  obtain ⟨m, rfl⟩ : ∃ m, n = m + 1 := ⟨n - 1, by omega⟩
  have herr := argLoop_err m (g + 1) [] false false 0 [semiTok, eofTok]
      (by simpa using h1)
  rcases hp : argLoop (m + ((g + 1) + 13)) []
      ⟨argStream (m + 1) ++ rparenTok :: [semiTok, eofTok], false, false, 0⟩
    with ⟨res, sx⟩
  rw [hp] at herr
  simp only at herr
  subst herr
  simp only [callArgTokens]
  rw [finishCall]
  simp only [peekTok, argStream_append_head,
    show (decide (numTok1.kind ≠ TokenType.rightParen)) = true from rfl,
    ite_true, reduceIte, if_true]
  rw [show m + 1 + (g + 13) = m + ((g + 1) + 13) from by omega]
  rw [hp]

/-- C7 counterexample: the claim says any function declaration with more
than 255 parameters is rejected; a declaration with 256 parameters (more
than 255) is ACCEPTED — `fun_declaration` checks the cap at loop entry,
before the next parameter, so the 256th parameter slips through. -/
theorem c7_counterexample_256_parameters_accepted :
    parseFunDeclaration 99 .function ⟨funDeclTokens 256, false, false, 0⟩
      = (.ok (.function fTok (List.replicate 256 paramTok) []),
         ⟨[eofTok], false, false, 0⟩) :=
  parseFunDecl_ok 256 (by decide) (by decide)

/-- C7 (amended): the parameter cap is off by one — declarations with up
to 256 parameters are accepted and 257 or more make `fun_declaration`
return a reported error (a returned `LoxError`, not a panic); calls are
capped as claimed — up to 255 arguments are accepted and 256 or more make
`finish_call` return a reported error. -/
theorem c7_parameter_cap_off_by_one_argument_cap_as_claimed :
    (∀ n : Nat, 1 ≤ n → n ≤ 256 →
        parseFunDeclaration 99 .function ⟨funDeclTokens n, false, false, 0⟩
          = (.ok (.function fTok (List.replicate n paramTok) []),
             ⟨[eofTok], false, false, 0⟩))
    ∧ (∀ n : Nat, 257 ≤ n →
        (parseFunDeclaration 99 .function ⟨funDeclTokens n, false, false, 0⟩).1
          = .error (.lox (.runtimeError fTok
              "Reached maximum number of parameters(255)")))
    ∧ (∀ n g : Nat, ∀ callee : Expr, 1 ≤ n → n ≤ 255 →
        finishCall ((n + (g + 13)) + 1) callee
            ⟨callArgTokens n, false, false, 0⟩
          = (.ok (.call callee rparenTok (List.replicate n (Expr.num 1))),
             ⟨[semiTok, eofTok], false, false, 0⟩))
    ∧ (∀ n g : Nat, ∀ callee : Expr, 256 ≤ n →
        (finishCall ((n + (g + 13)) + 1) callee
            ⟨callArgTokens n, false, false, 0⟩).1
          = .error (.lox (.parserError 1 "Too many arguments"))) :=
  ⟨parseFunDecl_ok, parseFunDecl_err,
   fun n g callee h1 h2 => finishCall_ok n g callee h1 h2,
   fun n g callee h1 => finishCall_err n g callee h1⟩

/-- C7 witness: the amended caps at the boundaries — a 2-parameter
declaration and a 257-parameter rejection, a 1-argument call and a
256-argument rejection. -/
theorem c7_witness :
    parseFunDeclaration 99 .function ⟨funDeclTokens 2, false, false, 0⟩
        = (.ok (.function fTok (List.replicate 2 paramTok) []),
           ⟨[eofTok], false, false, 0⟩)
    ∧ (parseFunDeclaration 99 .function ⟨funDeclTokens 257, false, false, 0⟩).1
        = .error (.lox (.runtimeError fTok
            "Reached maximum number of parameters(255)"))
    ∧ finishCall ((1 + (0 + 13)) + 1) (.var fTok 0)
          ⟨callArgTokens 1, false, false, 0⟩
        = (.ok (.call (.var fTok 0) rparenTok (List.replicate 1 (Expr.num 1))),
           ⟨[semiTok, eofTok], false, false, 0⟩)
    ∧ (finishCall ((256 + (0 + 13)) + 1) (.var fTok 0)
          ⟨callArgTokens 256, false, false, 0⟩).1
        = .error (.lox (.parserError 1 "Too many arguments")) :=
  ⟨c7_parameter_cap_off_by_one_argument_cap_as_claimed.1 2 (by decide) (by decide),
   c7_parameter_cap_off_by_one_argument_cap_as_claimed.2.1 257 (by decide),
   c7_parameter_cap_off_by_one_argument_cap_as_claimed.2.2.1 1 0 (.var fTok 0)
     (by decide) (by decide),
   c7_parameter_cap_off_by_one_argument_cap_as_claimed.2.2.2 256 0 (.var fTok 0)
     (by decide)⟩

end Lox
